import Mathlib

/-!
Verification development for the btier tiered-storage engine
(kernel/btier/btier_main.c).  The definitions below are a shallow
embedding of the allocation bitmap, block-mapping table, migration
journal, migration transaction and background walker of that file.
Machine integers are modelled as Nat; unsigned 64-bit subtraction that
may wrap is modelled explicitly through u64_sub.  Kernel concurrency
(spinlocks, the qlock gate, timers) is not modelled: each embedded
function is the sequential body executed under the locks it takes.
-/

/-- Modelled from the spec: block-size constants from btier.h, which is not
under src.  BLK_SHIFT is the log2 of the fixed data-block size. -/
def BLK_SHIFT : Nat := 20

/-- Modelled from the spec: the fixed data-block size in bytes (btier.h). -/
def BLKSIZE : Nat := 2 ^ BLK_SHIFT

/-- Modelled from the spec: kernel page-size constants (headers not under src). -/
def PAGE_SHIFT : Nat := 12

/-- Modelled from the spec: kernel page size in bytes. -/
def PAGE_SIZE : Nat := 2 ^ PAGE_SHIFT

/-- Modelled from the spec: allocation-bitmap byte value for an allocated slot
(btier.h, not under src); one byte per block slot. -/
def ALLOCATED : Nat := 0xff

/-- Modelled from the spec: allocation-bitmap byte value for a free slot. -/
def UNALLOCATED : Nat := 0x00

/-- Modelled from the spec: the ceiling above which block access counters are
decayed (btier.h, not under src); the exact value does not affect the theorems. -/
def MAX_STAT_COUNT : Nat := 10000000

/-- Modelled from the spec: the fixed decay decrement (btier.h, not under src). -/
def MAX_STAT_DECAY : Nat := 500000

/-- Linux errno values used by copyblock (errno.h, not under src). -/
def EEXIST : Int := 17

/-- Linux errno value for an out-of-space failure. -/
def ENOSPC : Int := 28

/-- Modelled from the spec: btier_div is the unsigned division helper from
btier.h (not under src); averages are total divided by blocks-on-that-tier. -/
def btier_div (a b : Nat) : Nat := a / b

/-- The modulus of 64-bit unsigned arithmetic. -/
def U64_MOD : Nat := 2 ^ 64

/-- Unsigned 64-bit subtraction exactly as C computes it on u64 fields
(wraps around on underflow). -/
def u64_sub (a b : Nat) : Nat := (a + U64_MOD - b) % U64_MOD

/-- In-memory per-logical-block mapping entry (struct blockinfo, btier.h; the
fields are those read and written by btier_main.c and spec section 3).
device = 0 means unallocated, otherwise device is the 1-based tier ordinal
and offset is the absolute byte offset inside that tier. -/
structure blockinfo where
  device : Nat
  offset : Nat
  lastused : Nat
  readcount : Nat
  writecount : Nat
deriving DecidableEq

/-- The all-zero blockinfo (an unallocated entry, also the memset-0 value). -/
def blockinfo.zero : blockinfo := ⟨0, 0, 0, 0, 0⟩

/-- Migration policy parameters (struct data_policy); only the fields the
embedded functions read are modelled. -/
structure data_policy where
  max_age : Nat
  hit_collecttime : Nat
deriving DecidableEq

/-- Zero policy record. -/
def data_policy.zero : data_policy := ⟨0, 0⟩

/-- Per-backing-device header state (struct devicemagic): heat totals and
averages, the single journal slot and the clean flag.  The in-memory copy and
its persisted image are kept in sync by write_device_magic at the points the
embedded functions model, so one copy is kept. -/
structure devicemagic where
  total_reads : Nat
  total_writes : Nat
  average_reads : Nat
  average_writes : Nat
  binfo_journal_old : blockinfo
  binfo_journal_new : blockinfo
  blocknr_journal : Nat
  clean : Bool
  dtapolicy : data_policy
deriving DecidableEq

/-- Zero devicemagic record. -/
def devicemagic.zero : devicemagic :=
  ⟨0, 0, 0, 0, blockinfo.zero, blockinfo.zero, 0, true, data_policy.zero⟩

/-- Per-backing-device state (struct backing_device): geometry of the data
region and bitmap, the cached bitmap (bitlist), its persisted image
(bitlist_disk), and the free-slot cursor (free_offset, in block slots). -/
structure backing_device where
  devicesize : Nat
  startofdata : Nat
  endofdata : Nat
  startofbitlist : Nat
  bitlistsize : Nat
  free_offset : Nat
  bitlist : List Nat
  bitlist_disk : List Nat
  devmagic : devicemagic
deriving DecidableEq

/-- Zero backing device. -/
def backing_device.zero : backing_device :=
  ⟨0, 0, 0, 0, 0, 0, [], [], devicemagic.zero⟩

/-- Whole-device state (struct tier_device).  The blocklist cache and its
persisted image live on backing device 0 in the C code; they are lifted to
the top level here.  ghost_avg_recomputes is ghost instrumentation (not
program state): it counts, per tier, the executions of the average
recomputation statement of walk_blocklist (btier_main.c lines 1050-1055). -/
structure tier_state where
  attached_devices : Nat
  backdev : List backing_device
  blocklist : List blockinfo
  blocklist_disk : List blockinfo
  resumeblockwalk : Nat
  ghost_avg_recomputes : List Nat
deriving DecidableEq

/-- dev->backdev[i] (out-of-range reads yield the zero device; the embedded
functions are only applied at in-range indices). -/
def tier_state.getBackdev (s : tier_state) (i : Nat) : backing_device :=
  s.backdev.getD i backing_device.zero

/-- Replace dev->backdev[i]. -/
def tier_state.setBackdev (s : tier_state) (i : Nat) (bd : backing_device) : tier_state :=
  { s with backdev := s.backdev.set i bd }

/-- The write policies of write_blocklist (btier_main.c lines 517-522):
WD writes only the persisted table, WC only the cache, WA both. -/
inductive write_policy where
  | WA : write_policy
  | WD : write_policy
  | WC : write_policy
deriving DecidableEq

/-- Inner byte scan of one bitmap page in allocate_dev (the buffercount loop,
btier_main.c lines 282-309): return the first byte index at or after base,
within the next n bytes, whose bitmap byte is not ALLOCATED.  Bytes beyond the
loaded bitmap read as 0 (vzalloc zero-fills whole pages). -/
def scan_page (bl : List Nat) : Nat → Nat → Option Nat
  | _, 0 => none
  | base, n + 1 =>
    if bl.getD base UNALLOCATED ≠ ALLOCATED then some base
    else scan_page bl (base + 1) n

/-- Outer page loop of allocate_dev (btier_main.c lines 279-311): scan page
cur, then following pages, while the page start lies inside the bitmap.
fuel bounds the recursion; callers pass bitlistsize + 1 which exceeds the
number of pages. -/
def find_free_byte (bl : List Nat) (bsize : Nat) : Nat → Nat → Option Nat
  | _, 0 => none
  | cur, fuel + 1 =>
    if cur * PAGE_SIZE < bsize then
      match scan_page bl (cur * PAGE_SIZE) PAGE_SIZE with
      | some idx => some idx
      | none => find_free_byte bl bsize (cur + 1) fuel
    else none

/-- allocate_dev (btier_main.c lines 263-315): scan the bitmap from the page
containing the cached free_offset cursor for the first non-ALLOCATED byte;
on success set the entry offset inside the data region, mark the byte
ALLOCATED in cache and on disk (mark_offset_as_used), move the cursor to the
slot and set the 1-based device; if the candidate slot would extend past
endofdata, give up with the device field left 0 (out of space).  The int
result of the C function (the bitmap byte write status) is modelled as
always 0 and dropped; its caller ignores it.  allocate_apply is the action
taken on the scan result (lines 283-304): on a hit, set the entry offset,
check the end-of-data bound, and on success mark the slot and move the
cursor. -/
def allocate_apply (s : tier_state) (binfo : blockinfo) (device : Nat) :
    Option Nat → blockinfo × tier_state
  | none => (binfo, s)
  | some idx =>
    let backdev := s.getBackdev device
    let b1 : blockinfo := { binfo with offset := idx * BLKSIZE + backdev.startofdata }
    if backdev.endofdata < b1.offset + BLKSIZE then (b1, s)
    else
      ({ b1 with device := device + 1 },
       s.setBackdev device
         { backdev with
           free_offset := idx,
           bitlist := backdev.bitlist.set idx ALLOCATED,
           bitlist_disk := backdev.bitlist_disk.set idx ALLOCATED })

/-- The body of allocate_dev proper: run the scan, then act on its result
through allocate_apply above. -/
def allocate_dev (s : tier_state) (blocknr : Nat) (binfo : blockinfo) (device : Nat) :
    blockinfo × tier_state :=
  let backdev := s.getBackdev device
  if binfo.device ≠ 0 then (binfo, s)
  else
    allocate_apply s binfo device
      (find_free_byte backdev.bitlist backdev.bitlistsize
        (backdev.free_offset >>> PAGE_SHIFT) (backdev.bitlistsize + 1))

/-- clear_dev_list (btier_main.c lines 239-261): mark the slot of binfo free
on disk and in the cached bitmap, and lower the free-slot cursor to the freed
slot when the cursor is above it. -/
def clear_dev_list (s : tier_state) (binfo : blockinfo) : tier_state :=
  let di := binfo.device - 1
  let backdev := s.getBackdev di
  let boffset := (binfo.offset - backdev.startofdata) >>> BLK_SHIFT
  s.setBackdev di
    { backdev with
      bitlist_disk := backdev.bitlist_disk.set boffset UNALLOCATED,
      free_offset := if boffset < backdev.free_offset then boffset else backdev.free_offset,
      bitlist := backdev.bitlist.set boffset UNALLOCATED }

/-- write_blocklist (btier_main.c lines 523-561): stamp lastused with the
current time, then update the cached entry unless the policy is WD and the
persisted entry unless the policy is WC.  File writes are modelled as
succeeding, so the int result is 0. -/
def write_blocklist (s : tier_state) (blocknr : Nat) (binfo : blockinfo)
    (policy : write_policy) (now : Nat) : Int × blockinfo × tier_state :=
  let binfo := { binfo with lastused := now }
  let s1 := if policy ≠ write_policy.WD
            then { s with blocklist := s.blocklist.set blocknr binfo } else s
  let s2 := if policy ≠ write_policy.WC
            then { s1 with blocklist_disk := s1.blocklist_disk.set blocknr binfo } else s1
  (0, binfo, s2)

/-- update_blocklist (btier_main.c lines 496-515) as called with the cached
entry of blocknr (walk_blocklist and free_blocklist do so): read the
persisted entry, and when it differs from the cached one write the cached
entry with policy WD.  Because the caller passes a pointer into the cache,
the lastused stamp of write_blocklist lands in the cache as well. -/
def update_blocklist (s : tier_state) (blocknr : Nat) (now : Nat) : tier_state :=
  let binfo := s.blocklist.getD blocknr blockinfo.zero
  if s.blocklist_disk.getD blocknr blockinfo.zero = binfo then s
  else
    let r := write_blocklist s blocknr binfo write_policy.WD now
    { r.2.2 with blocklist := r.2.2.blocklist.set blocknr r.2.1 }

/-- write_blocklist_journal (btier_main.c lines 563-577): record the old and
new entries and the logical block number in the source tier's header and
persist it (write_device_magic). -/
def write_blocklist_journal (s : tier_state) (blocknr : Nat)
    (newdevice olddevice : blockinfo) : tier_state :=
  let device := olddevice.device - 1
  let backdev := s.getBackdev device
  s.setBackdev device
    { backdev with
      devmagic := { backdev.devmagic with
        binfo_journal_old := olddevice,
        binfo_journal_new := newdevice,
        blocknr_journal := blocknr } }

/-- clean_blocklist_journal (btier_main.c lines 579-593): zero both journal
entries, mark the header clean and persist it. -/
def clean_blocklist_journal (s : tier_state) (device : Nat) : tier_state :=
  let backdev := s.getBackdev device
  s.setBackdev device
    { backdev with
      devmagic := { backdev.devmagic with
        binfo_journal_old := blockinfo.zero,
        binfo_journal_new := blockinfo.zero,
        clean := true,
        blocknr_journal := 0 } }

/-- recover_journal (btier_main.c lines 595-621): if the journal's old entry
has device 0 the journal is clean and nothing happens; otherwise re-commit
the journal's old entry for the journalled block with policy WD, free the
journal's new slot when the new entry's device is non-zero, and clear the
journal. -/
def recover_journal (s : tier_state) (device : Nat) (now : Nat) : tier_state :=
  let devmagic := (s.getBackdev device).devmagic
  if devmagic.binfo_journal_old.device = 0 then s
  else
    let blocknr := devmagic.blocknr_journal
    let s1 := (write_blocklist s blocknr devmagic.binfo_journal_old write_policy.WD now).2.2
    let s2 := if devmagic.binfo_journal_new.device ≠ 0
              then clear_dev_list s1 devmagic.binfo_journal_new else s1
    clean_blocklist_journal s2 device

/-- reset_counters_on_migration (btier_main.c lines 683-714): subtract the
migrated block's counters from the source tier's totals (u64 arithmetic) and
recompute that tier's averages. -/
def reset_counters_on_migration (s : tier_state) (binfo : blockinfo) : tier_state :=
  let di := binfo.device - 1
  let backdev := s.getBackdev di
  let devblocks := backdev.devicesize >>> BLK_SHIFT
  let tr := u64_sub backdev.devmagic.total_reads binfo.readcount
  let tw := u64_sub backdev.devmagic.total_writes binfo.writecount
  s.setBackdev di
    { backdev with
      devmagic := { backdev.devmagic with
        total_reads := tr,
        total_writes := tw,
        average_writes := btier_div tw devblocks,
        average_reads := btier_div tr devblocks } }

/-- Step 3 of the migration transaction: the journal write of copyblock
(btier_main.c line 770). -/
def copyblock_stage_journal (s : tier_state) (newdevice olddevice : blockinfo)
    (curblock : Nat) : tier_state :=
  write_blocklist_journal s curblock newdevice olddevice

/-- Steps 3-4 of the migration transaction: journal write followed by the
durable blocklist commit with policy WA (btier_main.c lines 770-771);
returns the committed entry and the state. -/
def copyblock_stage_commit (s : tier_state) (newdevice olddevice : blockinfo)
    (curblock now : Nat) : blockinfo × tier_state :=
  let r := write_blocklist (copyblock_stage_journal s newdevice olddevice curblock)
             curblock newdevice write_policy.WA now
  (r.2.1, r.2.2)

/-- copyblock (btier_main.c lines 735-781): reset the counters of the new
entry and stamp it, refuse to migrate onto the same device (-EEXIST),
reserve a slot on the target tier through allocate_dev (-ENOSPC when that
leaves device 0), move the data (tier_moving_block is not under src and is
modelled from the spec as an abstract copy result moveRes: any non-zero
result aborts and propagates), then journal on the source tier, commit with
WA, sync the target (a no-op in this model) and clear the journal. -/
def copyblock (s : tier_state) (newdevice olddevice : blockinfo)
    (curblock now : Nat) (moveRes : Int) : Int × blockinfo × tier_state :=
  let devicenr := newdevice.device - 1
  let nd := { newdevice with readcount := 0, writecount := 0, lastused := now }
  if nd.device = olddevice.device then (-EEXIST, nd, s)
  else
    let nd0 : blockinfo := { nd with device := 0 }
    let r := allocate_dev s curblock nd0 devicenr
    if r.1.device = 0 then (-ENOSPC, r.1, r.2)
    else if moveRes ≠ 0 then (moveRes, r.1, r.2)
    else
      let c := copyblock_stage_commit r.2 r.1 olddevice curblock now
      let s3 := clean_blocklist_journal c.2 (olddevice.device - 1)
      (0, c.1, s3)

/-- The state after the commit half of a successful migration: the tail of
copyblock from the journal write on (btier_main.c lines 770-777) followed by
the accounting its callers perform on success (reset_counters_on_migration
then clear_dev_list on the old entry, btier_main.c lines 831-834, 885-888,
1165-1168), applied to the state X and reserved entry nA that allocate_dev
returned. -/
def migration_tail (X : tier_state) (curblock now : Nat) (nA old : blockinfo) : tier_state :=
  clear_dev_list (reset_counters_on_migration
    (clean_blocklist_journal
      (write_blocklist (write_blocklist_journal X curblock nA old)
        curblock nA write_policy.WA now).2.2
      (old.device - 1)) old) old

/-- The tier selected by the promote check of migrate_up_ifneeded
(btier_main.c lines 795-828): keep the device unless the block is above the
current tier's average plus its hysteresis and above the next faster tier's
average minus that tier's hysteresis, in which case move one tier up.
hysteresis is average divided by the number of attached tiers. -/
def migrate_up_newdev (s : tier_state) (binfo : blockinfo) : Nat :=
  if binfo.device ≤ 1 then binfo.device
  else
    let hitcount := binfo.readcount + binfo.writecount
    let dm := (s.getBackdev (binfo.device - 1)).devmagic
    let avghitcount := dm.average_reads + dm.average_writes
    if avghitcount + btier_div avghitcount s.attached_devices < hitcount then
      if 1 < binfo.device then
        let dmn := (s.getBackdev (binfo.device - 2)).devmagic
        let avghitcountnexttier := dmn.average_reads + dmn.average_writes
        let hysteresis := btier_div avghitcountnexttier s.attached_devices
        if avghitcountnexttier - hysteresis < hitcount then binfo.device - 1
        else binfo.device
      else binfo.device
    else binfo.device

/-- The tier selected by the demote check of migrate_down_ifneeded
(btier_main.c lines 857-883): move one tier down when the block is older
than max_age, or when it is colder than the current tier's average minus
hysteresis and older than hit_collecttime and device + 1 is strictly below
the number of attached tiers; afterwards restore the device when it exceeds
the number of attached tiers. -/
def migrate_down_newdev (s : tier_state) (binfo : blockinfo) (now : Nat) : Nat :=
  if binfo.device = 0 then binfo.device
  else
    let hitcount := binfo.readcount + binfo.writecount
    let dm := (s.getBackdev (binfo.device - 1)).devmagic
    let avghitcount := dm.average_reads + dm.average_writes
    let hysteresis := btier_div avghitcount s.attached_devices
    let d1 :=
      if dm.dtapolicy.max_age < now - binfo.lastused then binfo.device + 1
      else if hitcount < avghitcount - hysteresis ∧
              dm.dtapolicy.hit_collecttime < now - binfo.lastused then
        if binfo.device + 1 < s.attached_devices then binfo.device + 1 else binfo.device
      else binfo.device
    if s.attached_devices < d1 then binfo.device else d1

/-- migrate_up_ifneeded (btier_main.c lines 783-843) acting on the cached
entry of curblock: when the promote decision changes the device, run
copyblock; on success subtract the counters from the source tier, free the
old slot and hint a discard (a no-op here); on failure restore the entry
(the cache was not changed on the failure paths). -/
def migrate_up_ifneeded (s : tier_state) (curblock now : Nat) (moveRes : Int) :
    Int × tier_state :=
  let binfo := s.blocklist.getD curblock blockinfo.zero
  if binfo.device ≤ 1 then (0, s)
  else
    let newdev := migrate_up_newdev s binfo
    if newdev = binfo.device then (0, s)
    else
      let r := copyblock s { binfo with device := newdev } binfo curblock now moveRes
      if r.1 = 0 then
        let s1 := reset_counters_on_migration r.2.2 binfo
        (0, clear_dev_list s1 binfo)
      else (r.1, r.2.2)

/-- migrate_down_ifneeded (btier_main.c lines 845-897) acting on the cached
entry of curblock, analogous to migrate_up_ifneeded. -/
def migrate_down_ifneeded (s : tier_state) (curblock now : Nat) (moveRes : Int) :
    Int × tier_state :=
  let binfo := s.blocklist.getD curblock blockinfo.zero
  if binfo.device = 0 then (0, s)
  else
    let newdev := migrate_down_newdev s binfo now
    if newdev = binfo.device then (0, s)
    else
      let r := copyblock s { binfo with device := newdev } binfo curblock now moveRes
      if r.1 = 0 then
        let s1 := reset_counters_on_migration r.2.2 binfo
        (0, clear_dev_list s1 binfo)
      else (r.1, r.2.2)

/-- The counter-decay step of walk_blocklist (btier_main.c lines 1060-1073):
when a counter has reached MAX_STAT_COUNT, reduce it by MAX_STAT_DECAY and
reduce the owning tier's total by the same amount (u64 arithmetic on the
totals). -/
def stat_decay (binfo : blockinfo) (dm : devicemagic) : blockinfo × devicemagic :=
  let rc := if MAX_STAT_COUNT ≤ binfo.readcount
            then binfo.readcount - MAX_STAT_DECAY else binfo.readcount
  let tr := if MAX_STAT_COUNT ≤ binfo.readcount
            then u64_sub dm.total_reads MAX_STAT_DECAY else dm.total_reads
  let wc := if MAX_STAT_COUNT ≤ binfo.writecount
            then binfo.writecount - MAX_STAT_DECAY else binfo.writecount
  let tw := if MAX_STAT_COUNT ≤ binfo.writecount
            then u64_sub dm.total_writes MAX_STAT_DECAY else dm.total_writes
  ({ binfo with readcount := rc, writecount := wc },
   { dm with total_reads := tr, total_writes := tw })

/-- One loop iteration of walk_blocklist (btier_main.c lines 1036-1096) for
an uninterrupted pass (no stop request, migration enabled, no foreground
I/O): skip unallocated blocks; otherwise recompute the averages of the
block's tier (counted by the ghost field), attempt demote then promote,
apply counter decay against the tier captured before the migration attempts,
and persist the entry through update_blocklist.  get_blockinfo is not under
src and is modelled from the spec as the cached blocklist lookup. -/
def walk_visit_rest (t : tier_state) (di curblock now : Nat) (moveRes : Int) :
    tier_state :=
  let r := migrate_down_ifneeded t curblock now moveRes
  if r.1 ≠ 0 then r.2
  else
    let r2 := migrate_up_ifneeded r.2 curblock now moveRes
    let s2 := r2.2
    let binfo2 := s2.blocklist.getD curblock blockinfo.zero
    let bd2 := s2.getBackdev di
    let p := stat_decay binfo2 bd2.devmagic
    let s3 := { s2 with blocklist := s2.blocklist.set curblock p.1 }
    let s4 := s3.setBackdev di { bd2 with devmagic := p.2 }
    update_blocklist s4 curblock now

/-- The head of the loop body: skip unallocated blocks, recompute the tier's
averages (counted by the ghost field), then run walk_visit_rest above. -/
def walk_visit (s : tier_state) (curblock now : Nat) (moveRes : Int) : tier_state :=
  let binfo := s.blocklist.getD curblock blockinfo.zero
  if binfo.device = 0 then s
  else
    let di := binfo.device - 1
    let bd := s.getBackdev di
    let devblocks := bd.devicesize >>> BLK_SHIFT
    let sa := s.setBackdev di
      { bd with devmagic := { bd.devmagic with
          average_reads := btier_div bd.devmagic.total_reads devblocks,
          average_writes := btier_div bd.devmagic.total_writes devblocks } }
    let sg := { sa with ghost_avg_recomputes :=
        sa.ghost_avg_recomputes.set di (sa.ghost_avg_recomputes.getD di 0 + 1) }
    walk_visit_rest sg di curblock now moveRes

/-- The visiting loop of walk_blocklist over n consecutive blocks starting
at curblock. -/
def walk_range (now : Nat) (moveRes : Int) : tier_state → Nat → Nat → tier_state
  | s, _, 0 => s
  | s, curblock, n + 1 =>
    walk_range now moveRes (walk_visit s curblock now moveRes) (curblock + 1) n

/-- walk_blocklist (btier_main.c lines 1020-1119) as one uninterrupted pass:
visit every block from the saved resume cursor to the end of the blocklist,
then reset the resume cursor to 0 (timer rescheduling is outside the model). -/
def walk_blocklist (s : tier_state) (now : Nat) (moveRes : Int) : tier_state :=
  let blocks := s.blocklist.length
  let s1 := walk_range now moveRes s s.resumeblockwalk (blocks - s.resumeblockwalk)
  { s1 with resumeblockwalk := 0 }

/-- The loop of migrate_data_if_needed (btier_main.c lines 2199-2255),
including its cbres accounting: a visited block on device 1 whose offset
lies inside the region the enlarged blocklist will occupy is migrated to the
grown tier via copyblock; the source line if not cbres then res = -1, break
makes the loop abort with -1 exactly when that copyblock succeeded, and
continue (eventually returning 0) when it failed. -/
def migrate_data_loop (startofblocklist blocklistsize changeddevice now : Nat)
    (moveRes : Int) : tier_state → Nat → Nat → Int × tier_state
  | s, _, 0 => (0, s)
  | s, curblock, n + 1 =>
    let orgbinfo := s.blocklist.getD curblock blockinfo.zero
    if orgbinfo.device ≠ 1 then
      migrate_data_loop startofblocklist blocklistsize changeddevice now moveRes
        s (curblock + 1) n
    else
      let step : Int × tier_state :=
        if startofblocklist ≤ orgbinfo.offset ∧
           orgbinfo.offset ≤ startofblocklist + blocklistsize then
          let binfo : blockinfo := { orgbinfo with device := changeddevice + 1 }
          let r := copyblock s binfo orgbinfo curblock now moveRes
          if r.1 = 0 then
            let s1 := reset_counters_on_migration r.2.2 orgbinfo
            let s1 := clear_dev_list s1 orgbinfo
            (r.1, (write_blocklist s1 curblock r.2.1 write_policy.WC now).2.2)
          else (r.1, r.2.2)
        else ((1 : Int), s)
      if step.1 = 0 then (-1, step.2)
      else
        migrate_data_loop startofblocklist blocklistsize changeddevice now moveRes
          step.2 (curblock + 1) n

/-- migrate_data_if_needed (btier_main.c lines 2199-2255): walk all logical
blocks and relocate the tier-0 blocks overlapping the future blocklist
region to the grown tier. -/
def migrate_data_if_needed (s : tier_state) (startofblocklist blocklistsize
    changeddevice now : Nat) (moveRes : Int) : Int × tier_state :=
  migrate_data_loop startofblocklist blocklistsize changeddevice now moveRes
    s 0 s.blocklist.length

/-- The live entries of two distinct logical blocks never reference the same
(tier, offset) pair (spec section 8, allocation uniqueness). -/
def tier_uniqueness (s : tier_state) : Prop :=
  ∀ i, i < s.blocklist.length → ∀ j, j < s.blocklist.length → i ≠ j →
    (s.blocklist.getD i blockinfo.zero).device ≠ 0 →
    (s.blocklist.getD j blockinfo.zero).device ≠ 0 →
    ¬((s.blocklist.getD i blockinfo.zero).device
        = (s.blocklist.getD j blockinfo.zero).device ∧
      (s.blocklist.getD i blockinfo.zero).offset
        = (s.blocklist.getD j blockinfo.zero).offset)

/-- Well-formedness of one live entry: the tier exists, the offset is
block-aligned inside that tier's data region, and the slot it occupies is
marked ALLOCATED in that tier's bitmap (spec section 3, BlockEntry
invariant). -/
def entry_live_ok (s : tier_state) (b : blockinfo) : Prop :=
  b.device ≤ s.attached_devices ∧
  (s.getBackdev (b.device - 1)).startofdata ≤ b.offset ∧
  (b.offset - (s.getBackdev (b.device - 1)).startofdata) % BLKSIZE = 0 ∧
  b.offset + BLKSIZE ≤ (s.getBackdev (b.device - 1)).endofdata ∧
  (s.getBackdev (b.device - 1)).bitlist.getD
      ((b.offset - (s.getBackdev (b.device - 1)).startofdata) >>> BLK_SHIFT)
      UNALLOCATED = ALLOCATED

/-- Every live entry of the blocklist is well formed. -/
def tier_consistency (s : tier_state) : Prop :=
  ∀ i, i < s.blocklist.length →
    (s.blocklist.getD i blockinfo.zero).device ≠ 0 →
    entry_live_ok s (s.blocklist.getD i blockinfo.zero)

/-- Structural well-formedness of the device array: one backing device per
attached tier, and each bitmap covers the whole data region. -/
def device_wf (s : tier_state) : Prop :=
  s.backdev.length = s.attached_devices ∧
  ∀ d, d < s.attached_devices →
    (s.getBackdev d).endofdata ≤
      (s.getBackdev d).startofdata + (s.getBackdev d).bitlist.length * BLKSIZE

/-- The allocation invariant: structure, per-entry consistency and
uniqueness. -/
def tier_inv (s : tier_state) : Prop :=
  device_wf s ∧ tier_consistency s ∧ tier_uniqueness s

/-- The claim's promotion rule read literally: the same strictly-greater
test against average plus hysteresis, applied to the current tier and to the
next faster tier (the refinement counterpart of migrate_up_newdev, written
from the claim's words, to be compared with the code). -/
def promote_rule_spec (s : tier_state) (binfo : blockinfo) : Prop :=
  2 ≤ binfo.device ∧
  (let hits := binfo.readcount + binfo.writecount
   let dm := (s.getBackdev (binfo.device - 1)).devmagic
   let avgcur := dm.average_reads + dm.average_writes
   let dmn := (s.getBackdev (binfo.device - 2)).devmagic
   let avgnext := dmn.average_reads + dmn.average_writes
   avgcur + btier_div avgcur s.attached_devices < hits ∧
   avgnext + btier_div avgnext s.attached_devices < hits)

/-- The claim's demotion rule read literally: demote when the age test or
the heat test fires, provided only that the target tier exists (the
refinement counterpart of migrate_down_newdev, written from the claim's
words, to be compared with the code). -/
def demote_rule_spec (s : tier_state) (binfo : blockinfo) (now : Nat) : Prop :=
  binfo.device ≠ 0 ∧ binfo.device + 1 ≤ s.attached_devices ∧
  (let hits := binfo.readcount + binfo.writecount
   let dm := (s.getBackdev (binfo.device - 1)).devmagic
   let avg := dm.average_reads + dm.average_writes
   let hysteresis := btier_div avg s.attached_devices
   dm.dtapolicy.max_age < now - binfo.lastused ∨
   (hits < avg - hysteresis ∧ dm.dtapolicy.hit_collecttime < now - binfo.lastused))

/-- Concrete two-tier state for the promotion counterexample: the next
faster tier (index 0) has average hits 10, the block's own tier (index 1)
has average hits 0. -/
def sC4 : tier_state :=
  { attached_devices := 2,
    backdev := [{ backing_device.zero with
                  devmagic := { devicemagic.zero with average_reads := 10 } },
                backing_device.zero],
    blocklist := [], blocklist_disk := [], resumeblockwalk := 0,
    ghost_avg_recomputes := [] }

/-- A block on tier 1 with 14 hits. -/
def bC4 : blockinfo := ⟨2, 0, 0, 14, 0⟩

/-- Concrete two-tier state in which both tiers have average hits 10
(hysteresis 10 / 2 = 5), for the promotion scenario. -/
def sC4b : tier_state :=
  { attached_devices := 2,
    backdev := [{ backing_device.zero with
                  devmagic := { devicemagic.zero with average_reads := 10 } },
                { backing_device.zero with
                  devmagic := { devicemagic.zero with average_reads := 10 } }],
    blocklist := [], blocklist_disk := [], resumeblockwalk := 0,
    ghost_avg_recomputes := [] }

/-- Concrete two-tier state for the demotion counterexample: tier 0 has
average hits 100 (hysteresis 50), max_age 1000 and hit_collecttime 10. -/
def sC5 : tier_state :=
  { attached_devices := 2,
    backdev := [{ backing_device.zero with
                  devmagic := { devicemagic.zero with
                    average_reads := 100,
                    dtapolicy := { max_age := 1000, hit_collecttime := 10 } } },
                backing_device.zero],
    blocklist := [], blocklist_disk := [], resumeblockwalk := 0,
    ghost_avg_recomputes := [] }

/-- A cold block on tier 0: no hits, last used at time 0. -/
def bC5 : blockinfo := ⟨1, 0, 0, 0, 0⟩

/-- One-tier state whose bitmap has exactly one free slot (the last one),
for the allocation scenario. -/
def sC6 : tier_state :=
  { attached_devices := 1,
    backdev := [{ backing_device.zero with
                  startofdata := 0, endofdata := 4 * BLKSIZE,
                  bitlistsize := 4, free_offset := 0,
                  bitlist := [ALLOCATED, ALLOCATED, ALLOCATED, UNALLOCATED],
                  bitlist_disk := [ALLOCATED, ALLOCATED, ALLOCATED, UNALLOCATED] }],
    blocklist := [], blocklist_disk := [], resumeblockwalk := 0,
    ghost_avg_recomputes := [] }

/-- State after the first allocation on sC6. -/
def sC6a : tier_state := (allocate_dev sC6 0 blockinfo.zero 0).2

/-- The entry produced by the first allocation on sC6. -/
def bC6a : blockinfo := (allocate_dev sC6 0 blockinfo.zero 0).1

/-- State after freeing the slot obtained by the first allocation. -/
def sC6c : tier_state := clear_dev_list sC6a bC6a

/-- Two-tier state for the resize-relocation bug: logical block 0 lives on
tier 0 at offset 0 (inside the region a grown blocklist would occupy) and
tier 1 has one free slot. -/
def sC7 : tier_state :=
  { attached_devices := 2,
    backdev := [{ backing_device.zero with
                  startofdata := 0, endofdata := BLKSIZE, bitlistsize := 1,
                  devicesize := 2 * BLKSIZE,
                  bitlist := [ALLOCATED], bitlist_disk := [ALLOCATED] },
                { backing_device.zero with
                  startofdata := 0, endofdata := BLKSIZE, bitlistsize := 1,
                  devicesize := 2 * BLKSIZE,
                  bitlist := [UNALLOCATED], bitlist_disk := [UNALLOCATED] }],
    blocklist := [⟨1, 0, 0, 0, 0⟩], blocklist_disk := [⟨1, 0, 0, 0, 0⟩],
    resumeblockwalk := 0, ghost_avg_recomputes := [] }

/-- One-tier state with two allocated blocks on tier 0 and a zeroed ghost
recomputation counter, for the walker pass. -/
def sC8 : tier_state :=
  { attached_devices := 1,
    backdev := [{ backing_device.zero with devicesize := 4 * BLKSIZE }],
    blocklist := [⟨1, 0, 5, 0, 0⟩, ⟨1, BLKSIZE, 5, 0, 0⟩],
    blocklist_disk := [⟨1, 0, 5, 0, 0⟩, ⟨1, BLKSIZE, 5, 0, 0⟩],
    resumeblockwalk := 0, ghost_avg_recomputes := [0] }

/-- Two-tier state satisfying the allocation invariant: block 0 lives on
tier 0 whose single slot is allocated; tier 1 has one free slot. -/
def sW1 : tier_state :=
  { attached_devices := 2,
    backdev := [{ backing_device.zero with
                  startofdata := 0, endofdata := BLKSIZE, bitlistsize := 1,
                  devicesize := 2 * BLKSIZE,
                  bitlist := [ALLOCATED], bitlist_disk := [ALLOCATED] },
                { backing_device.zero with
                  startofdata := 0, endofdata := BLKSIZE, bitlistsize := 1,
                  devicesize := 2 * BLKSIZE,
                  bitlist := [UNALLOCATED], bitlist_disk := [UNALLOCATED] }],
    blocklist := [⟨1, 0, 0, 0, 0⟩], blocklist_disk := [⟨1, 0, 0, 0, 0⟩],
    resumeblockwalk := 0, ghost_avg_recomputes := [] }

/-- Base state for the crash-recovery witness (same shape as sW1, with the
new slot on tier 1 already allocated as copyblock leaves it). -/
def sW2 : tier_state :=
  { attached_devices := 2,
    backdev := [{ backing_device.zero with
                  startofdata := 0, endofdata := BLKSIZE, bitlistsize := 1,
                  devicesize := 2 * BLKSIZE,
                  bitlist := [ALLOCATED], bitlist_disk := [ALLOCATED] },
                { backing_device.zero with
                  startofdata := 0, endofdata := BLKSIZE, bitlistsize := 1,
                  devicesize := 2 * BLKSIZE,
                  bitlist := [ALLOCATED], bitlist_disk := [ALLOCATED] }],
    blocklist := [⟨1, 0, 3, 2, 1⟩], blocklist_disk := [⟨1, 0, 3, 2, 1⟩],
    resumeblockwalk := 0, ghost_avg_recomputes := [] }

/-- The pre-migration entry of the crash-recovery witness. -/
def oldW2 : blockinfo := ⟨1, 0, 3, 2, 1⟩

/-- The freshly allocated target entry of the crash-recovery witness. -/
def ndW2 : blockinfo := ⟨2, 0, 9, 0, 0⟩

/-- One-block state for the write_blocklist witness. -/
def sW10 : tier_state :=
  { attached_devices := 1, backdev := [backing_device.zero],
    blocklist := [blockinfo.zero], blocklist_disk := [blockinfo.zero],
    resumeblockwalk := 0, ghost_avg_recomputes := [] }

/-- Heat totals sitting exactly at the decay ceiling, for the decay witness. -/
def dmW9 : devicemagic :=
  { devicemagic.zero with total_reads := MAX_STAT_COUNT, total_writes := MAX_STAT_COUNT }

instance (s : tier_state) (b : blockinfo) : Decidable (entry_live_ok s b) := by
  unfold entry_live_ok; infer_instance

instance (s : tier_state) : Decidable (tier_uniqueness s) := by
  unfold tier_uniqueness; exact Nat.decidableBallLT _ _

instance (s : tier_state) : Decidable (tier_consistency s) := by
  unfold tier_consistency; infer_instance

instance (s : tier_state) : Decidable (device_wf s) := by
  unfold device_wf; infer_instance

instance (s : tier_state) : Decidable (tier_inv s) := by
  unfold tier_inv; infer_instance

instance (s : tier_state) (b : blockinfo) : Decidable (promote_rule_spec s b) := by
  unfold promote_rule_spec; infer_instance

instance (s : tier_state) (b : blockinfo) (n : Nat) : Decidable (demote_rule_spec s b n) := by
  unfold demote_rule_spec; infer_instance

theorem list_getD_set_self {α : Type} :
    ∀ (l : List α) (i : Nat) (a d : α), i < l.length → (l.set i a).getD i d = a
  | [], _, _, _, h => by simp at h
  | _ :: _, 0, _, _, _ => rfl
  | _ :: tl, i + 1, a, d, h => by
    simpa using list_getD_set_self tl i a d (by simpa using h)

theorem list_getD_set_ne {α : Type} :
    ∀ (l : List α) (i j : Nat) (a d : α), i ≠ j → (l.set i a).getD j d = l.getD j d
  | [], _, _, _, _, _ => by simp
  | _ :: _, 0, 0, _, _, h => absurd rfl h
  | _ :: _, 0, _ + 1, _, _, _ => by simp
  | _ :: _, _ + 1, 0, _, _, _ => by simp
  | _ :: tl, i + 1, j + 1, a, d, h => by
    simpa using list_getD_set_ne tl i j a d (fun e => h (by omega))

theorem list_set_of_length_le {α : Type} :
    ∀ (l : List α) (i : Nat) (a : α), l.length ≤ i → l.set i a = l
  | [], _, _, _ => rfl
  | _ :: _, 0, _, h => by simp at h
  | x :: tl, i + 1, a, h => by
    simp only [List.set]
    rw [list_set_of_length_le tl i a (by simpa using h)]

theorem u64_sub_of_le {a b : Nat} (hb : b ≤ a) (ha : a < U64_MOD) : u64_sub a b = a - b := by
  unfold u64_sub U64_MOD at *
  have h1 : a + 2 ^ 64 - b = (a - b) + 2 ^ 64 := by omega
  rw [h1, Nat.add_mod_right]
  exact Nat.mod_eq_of_lt (by omega)

theorem getBackdev_setBackdev_self (s : tier_state) (i : Nat) (bd : backing_device)
    (h : i < s.backdev.length) : (s.setBackdev i bd).getBackdev i = bd := by
  unfold tier_state.getBackdev tier_state.setBackdev
  exact list_getD_set_self _ _ _ _ h

theorem getBackdev_setBackdev_ne (s : tier_state) (i j : Nat) (bd : backing_device)
    (h : i ≠ j) : (s.setBackdev i bd).getBackdev j = s.getBackdev j := by
  unfold tier_state.getBackdev tier_state.setBackdev
  exact list_getD_set_ne _ _ _ _ _ h

theorem setBackdev_length (s : tier_state) (i : Nat) (bd : backing_device) :
    (s.setBackdev i bd).backdev.length = s.backdev.length := by
  unfold tier_state.setBackdev
  simp

theorem setBackdev_blocklist (s : tier_state) (i : Nat) (bd : backing_device) :
    (s.setBackdev i bd).blocklist = s.blocklist := rfl

theorem setBackdev_blocklist_disk (s : tier_state) (i : Nat) (bd : backing_device) :
    (s.setBackdev i bd).blocklist_disk = s.blocklist_disk := rfl

theorem setBackdev_attached (s : tier_state) (i : Nat) (bd : backing_device) :
    (s.setBackdev i bd).attached_devices = s.attached_devices := rfl

theorem setBackdev_ghost (s : tier_state) (i : Nat) (bd : backing_device) :
    (s.setBackdev i bd).ghost_avg_recomputes = s.ghost_avg_recomputes := rfl

theorem getBackdev_devmagic_only (s : tier_state) (i : Nat) (m : devicemagic) (j : Nat) :
    ((s.setBackdev i { s.getBackdev i with devmagic := m }).getBackdev j).devicesize
        = (s.getBackdev j).devicesize ∧
    ((s.setBackdev i { s.getBackdev i with devmagic := m }).getBackdev j).startofdata
        = (s.getBackdev j).startofdata ∧
    ((s.setBackdev i { s.getBackdev i with devmagic := m }).getBackdev j).endofdata
        = (s.getBackdev j).endofdata ∧
    ((s.setBackdev i { s.getBackdev i with devmagic := m }).getBackdev j).bitlistsize
        = (s.getBackdev j).bitlistsize ∧
    ((s.setBackdev i { s.getBackdev i with devmagic := m }).getBackdev j).free_offset
        = (s.getBackdev j).free_offset ∧
    ((s.setBackdev i { s.getBackdev i with devmagic := m }).getBackdev j).bitlist
        = (s.getBackdev j).bitlist ∧
    ((s.setBackdev i { s.getBackdev i with devmagic := m }).getBackdev j).bitlist_disk
        = (s.getBackdev j).bitlist_disk := by
  by_cases hij : i = j
  · subst hij
    by_cases hl : i < s.backdev.length
    · rw [getBackdev_setBackdev_self _ _ _ hl]
      exact ⟨rfl, rfl, rfl, rfl, rfl, rfl, rfl⟩
    · unfold tier_state.getBackdev tier_state.setBackdev
      rw [list_set_of_length_le _ _ _ (by omega)]
      exact ⟨rfl, rfl, rfl, rfl, rfl, rfl, rfl⟩
  · rw [getBackdev_setBackdev_ne _ _ _ _ hij]
    exact ⟨rfl, rfl, rfl, rfl, rfl, rfl, rfl⟩

theorem scan_page_eq_some (bl : List Nat) :
    ∀ (n base idx : Nat), scan_page bl base n = some idx →
      bl.getD idx UNALLOCATED ≠ ALLOCATED ∧ base ≤ idx ∧ idx < base + n ∧
      ∀ k, base ≤ k → k < idx → bl.getD k UNALLOCATED = ALLOCATED := by
  intro n
  induction n with
  | zero => intro base idx h; simp [scan_page] at h
  | succ n ih =>
    intro base idx h
    by_cases hb : bl.getD base UNALLOCATED ≠ ALLOCATED
    · simp only [scan_page, if_pos hb, Option.some.injEq] at h
      subst h
      exact ⟨hb, Nat.le_refl _, by omega,
        fun k hk1 hk2 => absurd (Nat.lt_of_le_of_lt hk1 hk2) (Nat.lt_irrefl _)⟩
    · simp only [scan_page, if_neg hb] at h
      obtain ⟨h1, h2, h3, h4⟩ := ih (base + 1) idx h
      refine ⟨h1, by omega, by omega, fun k hk1 hk2 => ?_⟩
      by_cases hk : k = base
      · subst hk; exact not_not.mp hb
      · exact h4 k (by omega) hk2

theorem scan_page_eq_none (bl : List Nat) :
    ∀ (n base : Nat), scan_page bl base n = none →
      ∀ k, base ≤ k → k < base + n → bl.getD k UNALLOCATED = ALLOCATED := by
  intro n
  induction n with
  | zero => intro base _ k hk1 hk2; omega
  | succ n ih =>
    intro base h k hk1 hk2
    by_cases hb : bl.getD base UNALLOCATED ≠ ALLOCATED
    · simp only [scan_page, if_pos hb] at h
      exact Option.noConfusion h
    · simp only [scan_page, if_neg hb] at h
      by_cases hk : k = base
      · subst hk; exact not_not.mp hb
      · exact ih (base + 1) h k (by omega) (by omega)

theorem find_free_byte_eq_some (bl : List Nat) (bsize : Nat) :
    ∀ (fuel cur idx : Nat), find_free_byte bl bsize cur fuel = some idx →
      bl.getD idx UNALLOCATED ≠ ALLOCATED ∧ cur * PAGE_SIZE ≤ idx ∧
      ∀ k, cur * PAGE_SIZE ≤ k → k < idx → bl.getD k UNALLOCATED = ALLOCATED := by
  intro fuel
  induction fuel with
  | zero => intro cur idx h; simp [find_free_byte] at h
  | succ fuel ih =>
    intro cur idx h
    by_cases hc : cur * PAGE_SIZE < bsize
    · simp only [find_free_byte, if_pos hc] at h
      cases hs : scan_page bl (cur * PAGE_SIZE) PAGE_SIZE with
      | some i =>
        rw [hs] at h
        simp only [Option.some.injEq] at h
        subst h
        obtain ⟨h1, h2, _, h4⟩ := scan_page_eq_some bl PAGE_SIZE (cur * PAGE_SIZE) i hs
        exact ⟨h1, h2, h4⟩
      | none =>
        rw [hs] at h
        obtain ⟨h1, h2, h3⟩ := ih (cur + 1) idx h
        have hstep : cur * PAGE_SIZE ≤ (cur + 1) * PAGE_SIZE :=
          Nat.mul_le_mul_right _ (by omega)
        have hrange := scan_page_eq_none bl PAGE_SIZE (cur * PAGE_SIZE) hs
        refine ⟨h1, Nat.le_trans hstep h2, fun k hk1 hk2 => ?_⟩
        by_cases hk : k < (cur + 1) * PAGE_SIZE
        · refine hrange k hk1 ?_
          rw [Nat.succ_mul] at hk
          exact hk
        · exact h3 k (Nat.le_of_not_lt hk) hk2
    · simp [find_free_byte, if_neg hc] at h

theorem allocate_dev_succ (s : tier_state) (blocknr : Nat) (b0 : blockinfo) (d : Nat)
    (hb : b0.device = 0)
    (hs : (allocate_dev s blocknr b0 d).1.device ≠ 0) :
    ∃ idx,
      find_free_byte (s.getBackdev d).bitlist (s.getBackdev d).bitlistsize
        ((s.getBackdev d).free_offset >>> PAGE_SHIFT) ((s.getBackdev d).bitlistsize + 1)
        = some idx ∧
      (s.getBackdev d).bitlist.getD idx UNALLOCATED ≠ ALLOCATED ∧
      idx * BLKSIZE + (s.getBackdev d).startofdata + BLKSIZE ≤ (s.getBackdev d).endofdata ∧
      (allocate_dev s blocknr b0 d).1 =
        { b0 with device := d + 1, offset := idx * BLKSIZE + (s.getBackdev d).startofdata } ∧
      (allocate_dev s blocknr b0 d).2 =
        s.setBackdev d
          { s.getBackdev d with
            free_offset := idx,
            bitlist := (s.getBackdev d).bitlist.set idx ALLOCATED,
            bitlist_disk := (s.getBackdev d).bitlist_disk.set idx ALLOCATED } := by
  simp only [allocate_dev] at hs ⊢
  rw [if_neg (by simp [hb])] at hs ⊢
  cases hf : find_free_byte (s.getBackdev d).bitlist (s.getBackdev d).bitlistsize
      ((s.getBackdev d).free_offset >>> PAGE_SHIFT) ((s.getBackdev d).bitlistsize + 1) with
  | none =>
    rw [hf] at hs
    simp [allocate_apply, hb] at hs
  | some idx =>
    by_cases hbound : (s.getBackdev d).endofdata
        < idx * BLKSIZE + (s.getBackdev d).startofdata + BLKSIZE
    · rw [hf] at hs
      simp only [allocate_apply, if_pos hbound] at hs
      simp [hb] at hs
    · refine ⟨idx, rfl, (find_free_byte_eq_some _ _ _ _ _ hf).1,
        Nat.le_of_not_lt hbound, ?_, ?_⟩
      · simp only [allocate_apply, if_neg hbound]
      · simp only [allocate_apply, if_neg hbound]

theorem allocate_dev_fail (s : tier_state) (blocknr : Nat) (b0 : blockinfo) (d : Nat)
    (hb : b0.device = 0)
    (hs : (allocate_dev s blocknr b0 d).1.device = 0) :
    (allocate_dev s blocknr b0 d).2 = s := by
  simp only [allocate_dev] at hs ⊢
  rw [if_neg (by simp [hb])] at hs ⊢
  cases hf : find_free_byte (s.getBackdev d).bitlist (s.getBackdev d).bitlistsize
      ((s.getBackdev d).free_offset >>> PAGE_SHIFT) ((s.getBackdev d).bitlistsize + 1) with
  | none => rfl
  | some idx =>
    by_cases hbound : (s.getBackdev d).endofdata
        < idx * BLKSIZE + (s.getBackdev d).startofdata + BLKSIZE
    · simp only [allocate_apply, if_pos hbound]
    · rw [hf] at hs
      simp only [allocate_apply, if_neg hbound] at hs
      simp at hs

theorem allocate_dev_components (s : tier_state) (blocknr : Nat) (b0 : blockinfo) (d : Nat) :
    (allocate_dev s blocknr b0 d).2.blocklist = s.blocklist ∧
    (allocate_dev s blocknr b0 d).2.blocklist_disk = s.blocklist_disk ∧
    (allocate_dev s blocknr b0 d).2.attached_devices = s.attached_devices ∧
    (allocate_dev s blocknr b0 d).2.ghost_avg_recomputes = s.ghost_avg_recomputes ∧
    (allocate_dev s blocknr b0 d).2.backdev.length = s.backdev.length := by
  simp only [allocate_dev]
  by_cases hb : b0.device ≠ 0
  · rw [if_pos hb]
    repeat' apply And.intro
    all_goals rfl
  · rw [if_neg hb]
    cases hf : find_free_byte (s.getBackdev d).bitlist (s.getBackdev d).bitlistsize
        ((s.getBackdev d).free_offset >>> PAGE_SHIFT) ((s.getBackdev d).bitlistsize + 1) with
    | none =>
      repeat' apply And.intro
      all_goals rfl
    | some idx =>
      by_cases hbound : (s.getBackdev d).endofdata
          < idx * BLKSIZE + (s.getBackdev d).startofdata + BLKSIZE
      · simp only [allocate_apply, if_pos hbound]
        repeat' apply And.intro
        all_goals first | rfl | trivial
      · simp only [allocate_apply, if_neg hbound]
        repeat' apply And.intro
        all_goals first | rfl | trivial | exact setBackdev_length _ _ _

theorem allocate_dev_devmagic (s : tier_state) (blocknr : Nat) (b0 : blockinfo) (d j : Nat) :
    ((allocate_dev s blocknr b0 d).2.getBackdev j).devmagic = (s.getBackdev j).devmagic := by
  simp only [allocate_dev]
  by_cases hb : b0.device ≠ 0
  · rw [if_pos hb]
  · rw [if_neg hb]
    cases hf : find_free_byte (s.getBackdev d).bitlist (s.getBackdev d).bitlistsize
        ((s.getBackdev d).free_offset >>> PAGE_SHIFT) ((s.getBackdev d).bitlistsize + 1) with
    | none => rfl
    | some idx =>
      by_cases hbound : (s.getBackdev d).endofdata
          < idx * BLKSIZE + (s.getBackdev d).startofdata + BLKSIZE
      · simp only [allocate_apply, if_pos hbound]
      · simp only [allocate_apply, if_neg hbound]
        by_cases hdj : d = j
        · subst hdj
          by_cases hl : d < s.backdev.length
          · rw [getBackdev_setBackdev_self _ _ _ hl]
          · unfold tier_state.getBackdev tier_state.setBackdev
            rw [list_set_of_length_le _ _ _ (by omega)]
        · rw [getBackdev_setBackdev_ne _ _ _ _ hdj]

theorem write_blocklist_binfo (s : tier_state) (bn : Nat) (b : blockinfo)
    (pol : write_policy) (now : Nat) :
    (write_blocklist s bn b pol now).2.1 = { b with lastused := now } := by
  cases pol <;> rfl

theorem write_blocklist_res (s : tier_state) (bn : Nat) (b : blockinfo)
    (pol : write_policy) (now : Nat) :
    (write_blocklist s bn b pol now).1 = 0 := by
  cases pol <;> rfl

theorem write_blocklist_backdev (s : tier_state) (bn : Nat) (b : blockinfo)
    (pol : write_policy) (now : Nat) :
    (write_blocklist s bn b pol now).2.2.backdev = s.backdev := by
  cases pol <;> rfl

theorem write_blocklist_attached (s : tier_state) (bn : Nat) (b : blockinfo)
    (pol : write_policy) (now : Nat) :
    (write_blocklist s bn b pol now).2.2.attached_devices = s.attached_devices := by
  cases pol <;> rfl

theorem write_blocklist_ghost (s : tier_state) (bn : Nat) (b : blockinfo)
    (pol : write_policy) (now : Nat) :
    (write_blocklist s bn b pol now).2.2.ghost_avg_recomputes = s.ghost_avg_recomputes := by
  cases pol <;> rfl

theorem write_blocklist_getBackdev (s : tier_state) (bn : Nat) (b : blockinfo)
    (pol : write_policy) (now : Nat) (j : Nat) :
    (write_blocklist s bn b pol now).2.2.getBackdev j = s.getBackdev j := by
  unfold tier_state.getBackdev
  rw [write_blocklist_backdev]

theorem write_blocklist_WA_blocklist (s : tier_state) (bn : Nat) (b : blockinfo) (now : Nat) :
    (write_blocklist s bn b write_policy.WA now).2.2.blocklist
      = s.blocklist.set bn { b with lastused := now } := rfl

theorem write_blocklist_WA_disk (s : tier_state) (bn : Nat) (b : blockinfo) (now : Nat) :
    (write_blocklist s bn b write_policy.WA now).2.2.blocklist_disk
      = s.blocklist_disk.set bn { b with lastused := now } := rfl

theorem write_blocklist_WD_blocklist (s : tier_state) (bn : Nat) (b : blockinfo) (now : Nat) :
    (write_blocklist s bn b write_policy.WD now).2.2.blocklist = s.blocklist := rfl

theorem write_blocklist_WD_disk (s : tier_state) (bn : Nat) (b : blockinfo) (now : Nat) :
    (write_blocklist s bn b write_policy.WD now).2.2.blocklist_disk
      = s.blocklist_disk.set bn { b with lastused := now } := rfl

theorem write_blocklist_WC_blocklist (s : tier_state) (bn : Nat) (b : blockinfo) (now : Nat) :
    (write_blocklist s bn b write_policy.WC now).2.2.blocklist
      = s.blocklist.set bn { b with lastused := now } := rfl

theorem write_blocklist_WC_disk (s : tier_state) (bn : Nat) (b : blockinfo) (now : Nat) :
    (write_blocklist s bn b write_policy.WC now).2.2.blocklist_disk = s.blocklist_disk := rfl

theorem write_blocklist_journal_components (s : tier_state) (bn : Nat)
    (nd old : blockinfo) (j : Nat) :
    (write_blocklist_journal s bn nd old).blocklist = s.blocklist ∧
    (write_blocklist_journal s bn nd old).blocklist_disk = s.blocklist_disk ∧
    (write_blocklist_journal s bn nd old).attached_devices = s.attached_devices ∧
    (write_blocklist_journal s bn nd old).ghost_avg_recomputes = s.ghost_avg_recomputes ∧
    (write_blocklist_journal s bn nd old).backdev.length = s.backdev.length ∧
    ((write_blocklist_journal s bn nd old).getBackdev j).startofdata
      = (s.getBackdev j).startofdata ∧
    ((write_blocklist_journal s bn nd old).getBackdev j).endofdata
      = (s.getBackdev j).endofdata ∧
    ((write_blocklist_journal s bn nd old).getBackdev j).bitlist
      = (s.getBackdev j).bitlist ∧
    ((write_blocklist_journal s bn nd old).getBackdev j).bitlist_disk
      = (s.getBackdev j).bitlist_disk ∧
    ((write_blocklist_journal s bn nd old).getBackdev j).free_offset
      = (s.getBackdev j).free_offset ∧
    ((write_blocklist_journal s bn nd old).getBackdev j).bitlistsize
      = (s.getBackdev j).bitlistsize := by
  unfold write_blocklist_journal
  obtain ⟨_, h2, h3, h4, h5, h6, h7⟩ := getBackdev_devmagic_only s (old.device - 1)
    { (s.getBackdev (old.device - 1)).devmagic with
      binfo_journal_old := old, binfo_journal_new := nd, blocknr_journal := bn } j
  exact ⟨rfl, rfl, rfl, rfl, setBackdev_length _ _ _, h2, h3, h6, h7, h5, h4⟩

theorem write_blocklist_journal_devmagic (s : tier_state) (bn : Nat)
    (nd old : blockinfo) (h : old.device - 1 < s.backdev.length) :
    ((write_blocklist_journal s bn nd old).getBackdev (old.device - 1)).devmagic =
      { (s.getBackdev (old.device - 1)).devmagic with
        binfo_journal_old := old, binfo_journal_new := nd, blocknr_journal := bn } := by
  unfold write_blocklist_journal
  rw [getBackdev_setBackdev_self _ _ _ h]

theorem clean_blocklist_journal_components (s : tier_state) (dv : Nat) (j : Nat) :
    (clean_blocklist_journal s dv).blocklist = s.blocklist ∧
    (clean_blocklist_journal s dv).blocklist_disk = s.blocklist_disk ∧
    (clean_blocklist_journal s dv).attached_devices = s.attached_devices ∧
    (clean_blocklist_journal s dv).ghost_avg_recomputes = s.ghost_avg_recomputes ∧
    (clean_blocklist_journal s dv).backdev.length = s.backdev.length ∧
    ((clean_blocklist_journal s dv).getBackdev j).startofdata
      = (s.getBackdev j).startofdata ∧
    ((clean_blocklist_journal s dv).getBackdev j).endofdata
      = (s.getBackdev j).endofdata ∧
    ((clean_blocklist_journal s dv).getBackdev j).bitlist
      = (s.getBackdev j).bitlist ∧
    ((clean_blocklist_journal s dv).getBackdev j).bitlist_disk
      = (s.getBackdev j).bitlist_disk ∧
    ((clean_blocklist_journal s dv).getBackdev j).free_offset
      = (s.getBackdev j).free_offset := by
  unfold clean_blocklist_journal
  obtain ⟨_, h2, h3, h4, h5, h6, h7⟩ := getBackdev_devmagic_only s dv
    { (s.getBackdev dv).devmagic with
      binfo_journal_old := blockinfo.zero, binfo_journal_new := blockinfo.zero,
      clean := true, blocknr_journal := 0 } j
  exact ⟨rfl, rfl, rfl, rfl, setBackdev_length _ _ _, h2, h3, h6, h7, h5⟩

theorem clean_blocklist_journal_devmagic (s : tier_state) (dv : Nat)
    (h : dv < s.backdev.length) :
    ((clean_blocklist_journal s dv).getBackdev dv).devmagic =
      { (s.getBackdev dv).devmagic with
        binfo_journal_old := blockinfo.zero, binfo_journal_new := blockinfo.zero,
        clean := true, blocknr_journal := 0 } := by
  unfold clean_blocklist_journal
  rw [getBackdev_setBackdev_self _ _ _ h]

theorem reset_counters_components (s : tier_state) (b : blockinfo) (j : Nat) :
    (reset_counters_on_migration s b).blocklist = s.blocklist ∧
    (reset_counters_on_migration s b).blocklist_disk = s.blocklist_disk ∧
    (reset_counters_on_migration s b).attached_devices = s.attached_devices ∧
    (reset_counters_on_migration s b).ghost_avg_recomputes = s.ghost_avg_recomputes ∧
    (reset_counters_on_migration s b).backdev.length = s.backdev.length ∧
    ((reset_counters_on_migration s b).getBackdev j).startofdata
      = (s.getBackdev j).startofdata ∧
    ((reset_counters_on_migration s b).getBackdev j).endofdata
      = (s.getBackdev j).endofdata ∧
    ((reset_counters_on_migration s b).getBackdev j).bitlist
      = (s.getBackdev j).bitlist ∧
    ((reset_counters_on_migration s b).getBackdev j).bitlist_disk
      = (s.getBackdev j).bitlist_disk ∧
    ((reset_counters_on_migration s b).getBackdev j).free_offset
      = (s.getBackdev j).free_offset := by
  unfold reset_counters_on_migration
  obtain ⟨_, h2, h3, h4, h5, h6, h7⟩ := getBackdev_devmagic_only s (b.device - 1)
    { (s.getBackdev (b.device - 1)).devmagic with
      total_reads := u64_sub (s.getBackdev (b.device - 1)).devmagic.total_reads b.readcount,
      total_writes := u64_sub (s.getBackdev (b.device - 1)).devmagic.total_writes b.writecount,
      average_writes := btier_div
        (u64_sub (s.getBackdev (b.device - 1)).devmagic.total_writes b.writecount)
        ((s.getBackdev (b.device - 1)).devicesize >>> BLK_SHIFT),
      average_reads := btier_div
        (u64_sub (s.getBackdev (b.device - 1)).devmagic.total_reads b.readcount)
        ((s.getBackdev (b.device - 1)).devicesize >>> BLK_SHIFT) } j
  exact ⟨rfl, rfl, rfl, rfl, setBackdev_length _ _ _, h2, h3, h6, h7, h5⟩

theorem clear_dev_list_components (s : tier_state) (b : blockinfo) :
    (clear_dev_list s b).blocklist = s.blocklist ∧
    (clear_dev_list s b).blocklist_disk = s.blocklist_disk ∧
    (clear_dev_list s b).attached_devices = s.attached_devices ∧
    (clear_dev_list s b).ghost_avg_recomputes = s.ghost_avg_recomputes ∧
    (clear_dev_list s b).backdev.length = s.backdev.length := by
  unfold clear_dev_list
  exact ⟨rfl, rfl, rfl, rfl, setBackdev_length _ _ _⟩

theorem clear_dev_list_getBackdev_ne (s : tier_state) (b : blockinfo) (j : Nat)
    (h : b.device - 1 ≠ j) :
    (clear_dev_list s b).getBackdev j = s.getBackdev j := by
  unfold clear_dev_list
  exact getBackdev_setBackdev_ne _ _ _ _ h

theorem clear_dev_list_getBackdev_self (s : tier_state) (b : blockinfo)
    (h : b.device - 1 < s.backdev.length) :
    (clear_dev_list s b).getBackdev (b.device - 1) =
      { s.getBackdev (b.device - 1) with
        bitlist_disk := (s.getBackdev (b.device - 1)).bitlist_disk.set
          ((b.offset - (s.getBackdev (b.device - 1)).startofdata) >>> BLK_SHIFT) UNALLOCATED,
        free_offset :=
          if (b.offset - (s.getBackdev (b.device - 1)).startofdata) >>> BLK_SHIFT
              < (s.getBackdev (b.device - 1)).free_offset
          then (b.offset - (s.getBackdev (b.device - 1)).startofdata) >>> BLK_SHIFT
          else (s.getBackdev (b.device - 1)).free_offset,
        bitlist := (s.getBackdev (b.device - 1)).bitlist.set
          ((b.offset - (s.getBackdev (b.device - 1)).startofdata) >>> BLK_SHIFT) UNALLOCATED } := by
  unfold clear_dev_list
  rw [getBackdev_setBackdev_self _ _ _ h]

theorem copyblock_eexist (s : tier_state) (ndin old : blockinfo) (curblock now : Nat)
    (moveRes : Int) (h : ndin.device = old.device) :
    (copyblock s ndin old curblock now moveRes).1 = -EEXIST ∧
    (copyblock s ndin old curblock now moveRes).2.2 = s := by
  simp only [copyblock]
  rw [if_pos h]
  exact ⟨rfl, rfl⟩

theorem copyblock_enospc (s : tier_state) (ndin old : blockinfo) (curblock now : Nat)
    (moveRes : Int) (hne : ndin.device ≠ old.device)
    (halloc : (allocate_dev s curblock
        { ndin with readcount := 0, writecount := 0, lastused := now, device := 0 }
        (ndin.device - 1)).1.device = 0) :
    (copyblock s ndin old curblock now moveRes).1 = -ENOSPC ∧
    (copyblock s ndin old curblock now moveRes).2.2 = s := by
  simp only [copyblock]
  rw [if_neg hne, if_pos halloc]
  exact ⟨rfl, allocate_dev_fail _ _ _ _ rfl halloc⟩

theorem copyblock_movefail (s : tier_state) (ndin old : blockinfo) (curblock now : Nat)
    (moveRes : Int) (hne : ndin.device ≠ old.device)
    (halloc : (allocate_dev s curblock
        { ndin with readcount := 0, writecount := 0, lastused := now, device := 0 }
        (ndin.device - 1)).1.device ≠ 0)
    (hm : moveRes ≠ 0) :
    (copyblock s ndin old curblock now moveRes).1 = moveRes ∧
    (copyblock s ndin old curblock now moveRes).2.2 =
      (allocate_dev s curblock
        { ndin with readcount := 0, writecount := 0, lastused := now, device := 0 }
        (ndin.device - 1)).2 := by
  simp only [copyblock]
  rw [if_neg hne, if_neg halloc, if_pos hm]
  exact ⟨rfl, rfl⟩

theorem copyblock_succ_struct (s : tier_state) (ndin old : blockinfo) (curblock now : Nat)
    (h : (copyblock s ndin old curblock now 0).1 = 0) :
    ndin.device ≠ old.device ∧
    (allocate_dev s curblock
        { ndin with readcount := 0, writecount := 0, lastused := now, device := 0 }
        (ndin.device - 1)).1.device ≠ 0 ∧
    (copyblock s ndin old curblock now 0).2.1 =
      (copyblock_stage_commit
        (allocate_dev s curblock
          { ndin with readcount := 0, writecount := 0, lastused := now, device := 0 }
          (ndin.device - 1)).2
        (allocate_dev s curblock
          { ndin with readcount := 0, writecount := 0, lastused := now, device := 0 }
          (ndin.device - 1)).1
        old curblock now).1 ∧
    (copyblock s ndin old curblock now 0).2.2 =
      clean_blocklist_journal
        (copyblock_stage_commit
          (allocate_dev s curblock
            { ndin with readcount := 0, writecount := 0, lastused := now, device := 0 }
            (ndin.device - 1)).2
          (allocate_dev s curblock
            { ndin with readcount := 0, writecount := 0, lastused := now, device := 0 }
            (ndin.device - 1)).1
          old curblock now).2
        (old.device - 1) := by
  simp only [copyblock] at h ⊢
  by_cases hne : ndin.device = old.device
  · rw [if_pos hne] at h
    have h2 : (-EEXIST : Int) = 0 := h
    norm_num [EEXIST] at h2
  · rw [if_neg hne] at h ⊢
    by_cases halloc : (allocate_dev s curblock
        { ndin with readcount := 0, writecount := 0, lastused := now, device := 0 }
        (ndin.device - 1)).1.device = 0
    · rw [if_pos halloc] at h
      have h2 : (-ENOSPC : Int) = 0 := h
      norm_num [ENOSPC] at h2
    · rw [if_neg halloc] at h ⊢
      rw [if_neg (by decide : ¬((0 : Int) ≠ 0))] at h ⊢
      exact ⟨hne, halloc, rfl, rfl⟩

theorem clear_dev_list_ghost (s : tier_state) (b : blockinfo) :
    (clear_dev_list s b).ghost_avg_recomputes = s.ghost_avg_recomputes :=
  (clear_dev_list_components s b).2.2.2.1

theorem reset_counters_ghost (s : tier_state) (b : blockinfo) :
    (reset_counters_on_migration s b).ghost_avg_recomputes = s.ghost_avg_recomputes :=
  (reset_counters_components s b 0).2.2.2.1

theorem copyblock_ghost (s : tier_state) (ndin old : blockinfo) (curblock now : Nat)
    (moveRes : Int) :
    (copyblock s ndin old curblock now moveRes).2.2.ghost_avg_recomputes
      = s.ghost_avg_recomputes := by
  simp only [copyblock]
  by_cases hne : ndin.device = old.device
  · rw [if_pos hne]
  · rw [if_neg hne]
    by_cases halloc : (allocate_dev s curblock
        { ndin with readcount := 0, writecount := 0, lastused := now, device := 0 }
        (ndin.device - 1)).1.device = 0
    · rw [if_pos halloc]
      exact (allocate_dev_components _ _ _ _).2.2.2.1
    · rw [if_neg halloc]
      by_cases hm : moveRes ≠ 0
      · rw [if_pos hm]
        exact (allocate_dev_components _ _ _ _).2.2.2.1
      · rw [if_neg hm]
        rw [(clean_blocklist_journal_components _ _ 0).2.2.2.1]
        unfold copyblock_stage_commit copyblock_stage_journal
        rw [write_blocklist_ghost]
        rw [(write_blocklist_journal_components _ _ _ _ 0).2.2.2.1]
        exact (allocate_dev_components _ _ _ _).2.2.2.1

theorem migrate_down_ghost (s : tier_state) (curblock now : Nat) (moveRes : Int) :
    (migrate_down_ifneeded s curblock now moveRes).2.ghost_avg_recomputes
      = s.ghost_avg_recomputes := by
  simp only [migrate_down_ifneeded]
  by_cases h0 : (s.blocklist.getD curblock blockinfo.zero).device = 0
  · rw [if_pos h0]
  · rw [if_neg h0]
    by_cases hsame : migrate_down_newdev s (s.blocklist.getD curblock blockinfo.zero) now
        = (s.blocklist.getD curblock blockinfo.zero).device
    · rw [if_pos hsame]
    · rw [if_neg hsame]
      by_cases hres : (copyblock s
          { s.blocklist.getD curblock blockinfo.zero with
            device := migrate_down_newdev s (s.blocklist.getD curblock blockinfo.zero) now }
          (s.blocklist.getD curblock blockinfo.zero) curblock now moveRes).1 = 0
      · rw [if_pos hres]
        rw [clear_dev_list_ghost, reset_counters_ghost, copyblock_ghost]
      · rw [if_neg hres]
        rw [copyblock_ghost]

theorem migrate_up_ghost (s : tier_state) (curblock now : Nat) (moveRes : Int) :
    (migrate_up_ifneeded s curblock now moveRes).2.ghost_avg_recomputes
      = s.ghost_avg_recomputes := by
  simp only [migrate_up_ifneeded]
  by_cases h0 : (s.blocklist.getD curblock blockinfo.zero).device ≤ 1
  · rw [if_pos h0]
  · rw [if_neg h0]
    by_cases hsame : migrate_up_newdev s (s.blocklist.getD curblock blockinfo.zero)
        = (s.blocklist.getD curblock blockinfo.zero).device
    · rw [if_pos hsame]
    · rw [if_neg hsame]
      by_cases hres : (copyblock s
          { s.blocklist.getD curblock blockinfo.zero with
            device := migrate_up_newdev s (s.blocklist.getD curblock blockinfo.zero) }
          (s.blocklist.getD curblock blockinfo.zero) curblock now moveRes).1 = 0
      · rw [if_pos hres]
        rw [clear_dev_list_ghost, reset_counters_ghost, copyblock_ghost]
      · rw [if_neg hres]
        rw [copyblock_ghost]

theorem update_blocklist_ghost (s : tier_state) (blocknr now : Nat) :
    (update_blocklist s blocknr now).ghost_avg_recomputes = s.ghost_avg_recomputes := by
  simp only [update_blocklist]
  by_cases hsame : s.blocklist_disk.getD blocknr blockinfo.zero
      = s.blocklist.getD blocknr blockinfo.zero
  · rw [if_pos hsame]
  · rw [if_neg hsame]
    exact write_blocklist_ghost _ _ _ _ _

theorem recover_journal_noop (u : tier_state) (dv : Nat) (now : Nat)
    (h : (u.getBackdev dv).devmagic.binfo_journal_old.device = 0) :
    recover_journal u dv now = u := by
  simp only [recover_journal]
  rw [if_pos h]

theorem recover_journal_spec (u : tier_state) (dv : Nat) (old nd : blockinfo)
    (blocknr now2 : Nat)
    (hj : (u.getBackdev dv).devmagic.binfo_journal_old = old)
    (hjn : (u.getBackdev dv).devmagic.binfo_journal_new = nd)
    (hjb : (u.getBackdev dv).devmagic.blocknr_journal = blocknr)
    (hold : old.device ≠ 0) (hnd : nd.device ≠ 0)
    (hdv : dv < u.backdev.length)
    (hnddv : nd.device - 1 < u.backdev.length)
    (hlen : blocknr < u.blocklist_disk.length)
    (hslot : (nd.offset - (u.getBackdev (nd.device - 1)).startofdata) >>> BLK_SHIFT
        < (u.getBackdev (nd.device - 1)).bitlist.length) :
    (recover_journal u dv now2).blocklist_disk.getD blocknr blockinfo.zero
      = { old with lastused := now2 } ∧
    ((recover_journal u dv now2).getBackdev dv).devmagic.binfo_journal_old
      = blockinfo.zero ∧
    ((recover_journal u dv now2).getBackdev dv).devmagic.binfo_journal_new
      = blockinfo.zero ∧
    ((recover_journal u dv now2).getBackdev dv).devmagic.clean = true ∧
    ((recover_journal u dv now2).getBackdev (nd.device - 1)).bitlist.getD
        ((nd.offset - (u.getBackdev (nd.device - 1)).startofdata) >>> BLK_SHIFT)
        UNALLOCATED = UNALLOCATED ∧
    (∀ now3, recover_journal (recover_journal u dv now2) dv now3
        = recover_journal u dv now2) ∧
    (recover_journal u dv now2).blocklist = u.blocklist := by
  have hWbackdev := write_blocklist_backdev u blocknr old write_policy.WD now2
  have hclean_dm : ((recover_journal u dv now2).getBackdev dv).devmagic =
      { ((if nd.device ≠ 0
            then clear_dev_list (write_blocklist u blocknr old write_policy.WD now2).2.2 nd
            else (write_blocklist u blocknr old write_policy.WD now2).2.2).getBackdev dv).devmagic
        with
        binfo_journal_old := blockinfo.zero, binfo_journal_new := blockinfo.zero,
        clean := true, blocknr_journal := 0 } := by
    simp only [recover_journal]
    rw [hj, hjn, hjb, if_neg hold]
    apply clean_blocklist_journal_devmagic
    rw [if_pos hnd, (clear_dev_list_components _ _).2.2.2.2, hWbackdev]
    exact hdv
  refine ⟨?_, ?_, ?_, ?_, ?_, ?_, ?_⟩
  · simp only [recover_journal]
    rw [hj, hjn, hjb, if_neg hold, if_pos hnd]
    rw [(clean_blocklist_journal_components _ dv 0).2.1]
    rw [(clear_dev_list_components _ _).2.1]
    rw [write_blocklist_WD_disk]
    exact list_getD_set_self _ _ _ _ (by simpa using hlen)
  · rw [hclean_dm]
  · rw [hclean_dm]
  · rw [hclean_dm]
  · simp only [recover_journal]
    rw [hj, hjn, hjb, if_neg hold, if_pos hnd]
    rw [(clean_blocklist_journal_components _ dv (nd.device - 1)).2.2.2.2.2.2.2.1]
    have hWlen : nd.device - 1
        < (write_blocklist u blocknr old write_policy.WD now2).2.2.backdev.length := by
      rw [hWbackdev]; exact hnddv
    rw [clear_dev_list_getBackdev_self _ _ hWlen]
    rw [write_blocklist_getBackdev]
    exact list_getD_set_self _ _ _ _ hslot
  · intro now3
    apply recover_journal_noop
    rw [hclean_dm]
    rfl
  · simp only [recover_journal]
    rw [hj, hjn, hjb, if_neg hold, if_pos hnd]
    rw [(clean_blocklist_journal_components _ dv 0).1]
    rw [(clear_dev_list_components _ _).1]
    rw [write_blocklist_WD_blocklist]

/-- C2: Crash-recovery convergence.  If the migration transaction is
abandoned after the journal write (copyblock_stage_journal, step 3) or after
the blocklist commit (copyblock_stage_commit, steps 3-4) and before the
journal clear, then running recover_journal on the source tier re-commits
the journal's old entry for the journalled logical block with policy WD
(DiskOnly: the persisted mapping reverts to the pre-migration entry, with
only the lastused stamp refreshed, and the cache is not touched), frees the
journal's new slot via clear_dev_list because the new entry's device is
non-zero, and clears the journal; a journal whose old entry has device 0
makes recovery do nothing, hence running recovery twice is a no-op and
recovery always converges to the pre-migration mapping. -/
theorem claim2_crash_recovery_convergence
    (s : tier_state) (old nd : blockinfo) (curblock now now2 : Nat)
    (hold : old.device ≠ 0) (hnd : nd.device ≠ 0)
    (horg : old.device - 1 < s.backdev.length)
    (hnddv : nd.device - 1 < s.backdev.length)
    (hlen : curblock < s.blocklist_disk.length)
    (hslot : (nd.offset - (s.getBackdev (nd.device - 1)).startofdata) >>> BLK_SHIFT
        < (s.getBackdev (nd.device - 1)).bitlist.length) :
    ((recover_journal (copyblock_stage_journal s nd old curblock) (old.device - 1)
        now2).blocklist_disk.getD curblock blockinfo.zero
      = { old with lastused := now2 } ∧
     ((recover_journal (copyblock_stage_journal s nd old curblock) (old.device - 1)
        now2).getBackdev (old.device - 1)).devmagic.binfo_journal_old = blockinfo.zero ∧
     ((recover_journal (copyblock_stage_journal s nd old curblock) (old.device - 1)
        now2).getBackdev (old.device - 1)).devmagic.binfo_journal_new = blockinfo.zero ∧
     ((recover_journal (copyblock_stage_journal s nd old curblock) (old.device - 1)
        now2).getBackdev (old.device - 1)).devmagic.clean = true ∧
     ((recover_journal (copyblock_stage_journal s nd old curblock) (old.device - 1)
        now2).getBackdev (nd.device - 1)).bitlist.getD
        ((nd.offset - (s.getBackdev (nd.device - 1)).startofdata) >>> BLK_SHIFT)
        UNALLOCATED = UNALLOCATED ∧
     (∀ now3, recover_journal
        (recover_journal (copyblock_stage_journal s nd old curblock) (old.device - 1) now2)
        (old.device - 1) now3
      = recover_journal (copyblock_stage_journal s nd old curblock) (old.device - 1) now2)) ∧
    ((recover_journal ((copyblock_stage_commit s nd old curblock now).2) (old.device - 1)
        now2).blocklist_disk.getD curblock blockinfo.zero
      = { old with lastused := now2 } ∧
     ((recover_journal ((copyblock_stage_commit s nd old curblock now).2) (old.device - 1)
        now2).getBackdev (old.device - 1)).devmagic.binfo_journal_old = blockinfo.zero ∧
     ((recover_journal ((copyblock_stage_commit s nd old curblock now).2) (old.device - 1)
        now2).getBackdev (old.device - 1)).devmagic.binfo_journal_new = blockinfo.zero ∧
     ((recover_journal ((copyblock_stage_commit s nd old curblock now).2) (old.device - 1)
        now2).getBackdev (old.device - 1)).devmagic.clean = true ∧
     ((recover_journal ((copyblock_stage_commit s nd old curblock now).2) (old.device - 1)
        now2).getBackdev (nd.device - 1)).bitlist.getD
        ((nd.offset - (s.getBackdev (nd.device - 1)).startofdata) >>> BLK_SHIFT)
        UNALLOCATED = UNALLOCATED ∧
     (∀ now3, recover_journal
        (recover_journal ((copyblock_stage_commit s nd old curblock now).2)
          (old.device - 1) now2) (old.device - 1) now3
      = recover_journal ((copyblock_stage_commit s nd old curblock now).2)
          (old.device - 1) now2)) ∧
    (∀ u dv n, (u.getBackdev dv).devmagic.binfo_journal_old.device = 0 →
      recover_journal u dv n = u) := by
  have hdm := write_blocklist_journal_devmagic s curblock nd old horg
  have hcompn := write_blocklist_journal_components s curblock nd old (nd.device - 1)
  have hj1 : ((copyblock_stage_journal s nd old curblock).getBackdev
      (old.device - 1)).devmagic.binfo_journal_old = old := by
    unfold copyblock_stage_journal
    rw [hdm]
  have hjn1 : ((copyblock_stage_journal s nd old curblock).getBackdev
      (old.device - 1)).devmagic.binfo_journal_new = nd := by
    unfold copyblock_stage_journal
    rw [hdm]
  have hjb1 : ((copyblock_stage_journal s nd old curblock).getBackdev
      (old.device - 1)).devmagic.blocknr_journal = curblock := by
    unfold copyblock_stage_journal
    rw [hdm]
  have hlen1 : (copyblock_stage_journal s nd old curblock).backdev.length
      = s.backdev.length := by
    unfold copyblock_stage_journal
    exact hcompn.2.2.2.2.1
  have hdisk1 : (copyblock_stage_journal s nd old curblock).blocklist_disk
      = s.blocklist_disk := by
    unfold copyblock_stage_journal
    exact hcompn.2.1
  have hstart1 : ((copyblock_stage_journal s nd old curblock).getBackdev
      (nd.device - 1)).startofdata = (s.getBackdev (nd.device - 1)).startofdata := by
    unfold copyblock_stage_journal
    exact hcompn.2.2.2.2.2.1
  have hbit1 : ((copyblock_stage_journal s nd old curblock).getBackdev
      (nd.device - 1)).bitlist = (s.getBackdev (nd.device - 1)).bitlist := by
    unfold copyblock_stage_journal
    exact hcompn.2.2.2.2.2.2.2.1
  have spec1 := recover_journal_spec (copyblock_stage_journal s nd old curblock)
    (old.device - 1) old nd curblock now2 hj1 hjn1 hjb1 hold hnd
    (by rw [hlen1]; exact horg) (by rw [hlen1]; exact hnddv)
    (by rw [hdisk1]; exact hlen) (by rw [hstart1, hbit1]; exact hslot)
  rw [hstart1] at spec1
  have hgb2 : ∀ j, ((copyblock_stage_commit s nd old curblock now).2).getBackdev j
      = (copyblock_stage_journal s nd old curblock).getBackdev j := by
    intro j
    unfold copyblock_stage_commit
    exact write_blocklist_getBackdev _ _ _ _ _ j
  have hbd2 : ((copyblock_stage_commit s nd old curblock now).2).backdev.length
      = s.backdev.length := by
    unfold copyblock_stage_commit
    rw [write_blocklist_backdev]
    exact hlen1
  have hdisk2 : ((copyblock_stage_commit s nd old curblock now).2).blocklist_disk
      = (copyblock_stage_journal s nd old curblock).blocklist_disk.set curblock
          { nd with lastused := now } := by
    unfold copyblock_stage_commit
    exact write_blocklist_WA_disk _ _ _ _
  have spec2 := recover_journal_spec ((copyblock_stage_commit s nd old curblock now).2)
    (old.device - 1) old nd curblock now2
    (by rw [hgb2]; exact hj1) (by rw [hgb2]; exact hjn1) (by rw [hgb2]; exact hjb1)
    hold hnd (by rw [hbd2]; exact horg) (by rw [hbd2]; exact hnddv)
    (by rw [hdisk2]; simpa [hdisk1] using hlen)
    (by rw [hgb2, hstart1, hbit1]; exact hslot)
  rw [hgb2, hstart1] at spec2
  exact ⟨⟨spec1.1, spec1.2.1, spec1.2.2.1, spec1.2.2.2.1, spec1.2.2.2.2.1,
    spec1.2.2.2.2.2.1⟩,
    ⟨spec2.1, spec2.2.1, spec2.2.2.1, spec2.2.2.2.1, spec2.2.2.2.2.1,
    spec2.2.2.2.2.2.1⟩,
    fun u dv n h => recover_journal_noop u dv n h⟩

/-- Witness for C2 at a concrete two-tier state: block 0 migrating from
tier 1 to tier 2, crash states built from sW2, recovery at time 20. -/
theorem claim2_crash_recovery_convergence_witness :
    (recover_journal (copyblock_stage_journal sW2 ndW2 oldW2 0) 0
        20).blocklist_disk.getD 0 blockinfo.zero = { oldW2 with lastused := 20 } ∧
    (recover_journal ((copyblock_stage_commit sW2 ndW2 oldW2 0 9).2) 0
        20).blocklist_disk.getD 0 blockinfo.zero = { oldW2 with lastused := 20 } := by
  have h := claim2_crash_recovery_convergence sW2 oldW2 ndW2 0 9 20
    (by decide) (by decide) (by decide) (by decide) (by decide) (by decide)
  exact ⟨h.1.1, h.2.1.1⟩

/-- C3: copyblock failure boundaries.  If the target device equals the source
device the call fails with -EEXIST and the state is untouched (nothing
allocated, journalled or committed); if the target tier has no free slot it
fails with -ENOSPC and the state (hence the block's mapping) is unchanged;
if the data copy fails the error is propagated, the blocklist cache and
persisted table and every tier's header (journal included) are unchanged,
and the reserved target slot is left marked ALLOCATED in the bitmap; when
every step succeeds the call returns 0 with the counters-reset, freshly
stamped entry committed to cache and disk and the source tier's journal
cleared. -/
theorem claim3_copyblock_failure_boundaries
    (s : tier_state) (ndin old : blockinfo) (curblock now : Nat) (moveRes : Int)
    (hnd : ndin.device ≠ 0)
    (htgt : ndin.device - 1 < s.backdev.length)
    (horg : old.device - 1 < s.backdev.length) :
    (ndin.device = old.device →
      (copyblock s ndin old curblock now moveRes).1 = -EEXIST ∧
      (copyblock s ndin old curblock now moveRes).2.2 = s) ∧
    (ndin.device ≠ old.device →
      (allocate_dev s curblock
        { ndin with readcount := 0, writecount := 0, lastused := now, device := 0 }
        (ndin.device - 1)).1.device = 0 →
      (copyblock s ndin old curblock now moveRes).1 = -ENOSPC ∧
      (copyblock s ndin old curblock now moveRes).2.2 = s) ∧
    (ndin.device ≠ old.device → moveRes ≠ 0 →
      (allocate_dev s curblock
        { ndin with readcount := 0, writecount := 0, lastused := now, device := 0 }
        (ndin.device - 1)).1.device ≠ 0 →
      (copyblock s ndin old curblock now moveRes).1 = moveRes ∧
      (copyblock s ndin old curblock now moveRes).2.2.blocklist = s.blocklist ∧
      (copyblock s ndin old curblock now moveRes).2.2.blocklist_disk = s.blocklist_disk ∧
      (∀ j, ((copyblock s ndin old curblock now moveRes).2.2.getBackdev j).devmagic
        = (s.getBackdev j).devmagic) ∧
      (∃ idx, (s.getBackdev (ndin.device - 1)).bitlist.getD idx UNALLOCATED ≠ ALLOCATED ∧
        ((copyblock s ndin old curblock now moveRes).2.2.getBackdev
            (ndin.device - 1)).bitlist
          = (s.getBackdev (ndin.device - 1)).bitlist.set idx ALLOCATED)) ∧
    (ndin.device ≠ old.device →
      (allocate_dev s curblock
        { ndin with readcount := 0, writecount := 0, lastused := now, device := 0 }
        (ndin.device - 1)).1.device ≠ 0 →
      moveRes = 0 →
      (copyblock s ndin old curblock now moveRes).1 = 0 ∧
      (copyblock s ndin old curblock now moveRes).2.1.device = ndin.device ∧
      (copyblock s ndin old curblock now moveRes).2.1.readcount = 0 ∧
      (copyblock s ndin old curblock now moveRes).2.1.writecount = 0 ∧
      (copyblock s ndin old curblock now moveRes).2.1.lastused = now ∧
      (copyblock s ndin old curblock now moveRes).2.2.blocklist
        = s.blocklist.set curblock ((copyblock s ndin old curblock now moveRes).2.1) ∧
      (copyblock s ndin old curblock now moveRes).2.2.blocklist_disk
        = s.blocklist_disk.set curblock ((copyblock s ndin old curblock now moveRes).2.1) ∧
      ((copyblock s ndin old curblock now moveRes).2.2.getBackdev
          (old.device - 1)).devmagic.binfo_journal_old = blockinfo.zero ∧
      ((copyblock s ndin old curblock now moveRes).2.2.getBackdev
          (old.device - 1)).devmagic.binfo_journal_new = blockinfo.zero ∧
      ((copyblock s ndin old curblock now moveRes).2.2.getBackdev
          (old.device - 1)).devmagic.clean = true) := by
  refine ⟨fun h => copyblock_eexist s ndin old curblock now moveRes h,
    fun hne halloc => copyblock_enospc s ndin old curblock now moveRes hne halloc,
    fun hne hm halloc => ?_, fun hne halloc hm => ?_⟩
  · obtain ⟨h1, h2⟩ := copyblock_movefail s ndin old curblock now moveRes hne halloc hm
    obtain ⟨idx, hfind, hfresh, hbound, hba, hsa⟩ :=
      allocate_dev_succ s curblock _ (ndin.device - 1) rfl halloc
    refine ⟨h1, ?_, ?_, ?_, ⟨idx, hfresh, ?_⟩⟩
    · rw [h2]
      exact (allocate_dev_components _ _ _ _).1
    · rw [h2]
      exact (allocate_dev_components _ _ _ _).2.1
    · intro j
      rw [h2]
      exact allocate_dev_devmagic _ _ _ _ j
    · rw [h2, hsa, getBackdev_setBackdev_self _ _ _ htgt]
  · subst hm
    obtain ⟨idx, hfind, hfresh, hbound, hba, hsa⟩ :=
      allocate_dev_succ s curblock
        { ndin with readcount := 0, writecount := 0, lastused := now, device := 0 }
        (ndin.device - 1) rfl halloc
    have halen : (allocate_dev s curblock
        { ndin with readcount := 0, writecount := 0, lastused := now, device := 0 }
        (ndin.device - 1)).2.backdev.length = s.backdev.length :=
      (allocate_dev_components _ _ _ _).2.2.2.2
    have hablk : (allocate_dev s curblock
        { ndin with readcount := 0, writecount := 0, lastused := now, device := 0 }
        (ndin.device - 1)).2.blocklist = s.blocklist :=
      (allocate_dev_components _ _ _ _).1
    have hadisk : (allocate_dev s curblock
        { ndin with readcount := 0, writecount := 0, lastused := now, device := 0 }
        (ndin.device - 1)).2.blocklist_disk = s.blocklist_disk :=
      (allocate_dev_components _ _ _ _).2.1
    have hclen : old.device - 1 <
        (write_blocklist
          (write_blocklist_journal
            (allocate_dev s curblock
              { ndin with readcount := 0, writecount := 0, lastused := now, device := 0 }
              (ndin.device - 1)).2 curblock
            (allocate_dev s curblock
              { ndin with readcount := 0, writecount := 0, lastused := now, device := 0 }
              (ndin.device - 1)).1 old)
          curblock
          (allocate_dev s curblock
            { ndin with readcount := 0, writecount := 0, lastused := now, device := 0 }
            (ndin.device - 1)).1 write_policy.WA now).2.2.backdev.length := by
      rw [write_blocklist_backdev, (write_blocklist_journal_components _ _ _ _ 0).2.2.2.2.1,
        halen]
      exact horg
    simp only [copyblock]
    rw [if_neg hne, if_neg halloc, if_neg (by decide : ¬((0 : Int) ≠ 0))]
    unfold copyblock_stage_commit copyblock_stage_journal
    refine ⟨rfl, ?_, ?_, ?_, ?_, ?_, ?_, ?_, ?_, ?_⟩
    · rw [write_blocklist_binfo, hba]
      show ndin.device - 1 + 1 = ndin.device
      omega
    · rw [write_blocklist_binfo, hba]
    · rw [write_blocklist_binfo, hba]
    · rw [write_blocklist_binfo]
    · rw [(clean_blocklist_journal_components _ _ 0).1, write_blocklist_WA_blocklist,
        (write_blocklist_journal_components _ _ _ _ 0).1, hablk, write_blocklist_binfo]
    · rw [(clean_blocklist_journal_components _ _ 0).2.1, write_blocklist_WA_disk,
        (write_blocklist_journal_components _ _ _ _ 0).2.1, hadisk, write_blocklist_binfo]
    · rw [clean_blocklist_journal_devmagic _ _ hclen]
    · rw [clean_blocklist_journal_devmagic _ _ hclen]
    · rw [clean_blocklist_journal_devmagic _ _ hclen]

/-- Witness for C3 at the two-tier state sW1: a successful migration of
block 0 from tier 1 to tier 2 at time 5 commits the reset entry and leaves
the source journal clean. -/
theorem claim3_copyblock_failure_boundaries_witness :
    (copyblock sW1 ⟨2, 0, 0, 0, 0⟩ ⟨1, 0, 0, 0, 0⟩ 0 5 0).1 = 0 ∧
    (copyblock sW1 ⟨2, 0, 0, 0, 0⟩ ⟨1, 0, 0, 0, 0⟩ 0 5 0).2.1.device = 2 ∧
    ((copyblock sW1 ⟨2, 0, 0, 0, 0⟩ ⟨1, 0, 0, 0, 0⟩ 0 5 0).2.2.getBackdev
      0).devmagic.clean = true := by
  have h := (claim3_copyblock_failure_boundaries sW1 ⟨2, 0, 0, 0, 0⟩ ⟨1, 0, 0, 0, 0⟩ 0 5 0
    (by decide) (by decide) (by decide)).2.2.2 (by decide) (by decide) rfl
  exact ⟨h.1, h.2.1, h.2.2.2.2.2.2.2.2.2⟩

/-- C4 counterexample: with the next faster tier's average at 10 and its
hysteresis 10 / 2 = 5, the claim says a block with 14 hits is not promoted
and that promotion applies the same average-plus-hysteresis test to the
next faster tier; but migrate_up_ifneeded (btier_main.c line 825) compares
against average minus hysteresis, so with the block's own tier averaging 0
the decision promotes the 14-hit block: the claim's rule (promote_rule_spec)
evaluates false while the code promotes. -/
theorem claim4_promotion_counterexample :
    migrate_up_newdev sC4 bC4 = bC4.device - 1 ∧
    ¬ promote_rule_spec sC4 bC4 ∧
    bC4.readcount + bC4.writecount = 14 ∧
    (sC4.getBackdev 0).devmagic.average_reads
      + (sC4.getBackdev 0).devmagic.average_writes = 10 ∧
    btier_div 10 sC4.attached_devices = 5 := by decide

/-- C4 amended: a block not on tier 0 is promoted exactly one tier iff its
hits strictly exceed the current tier's average plus hysteresis AND strictly
exceed the next faster tier's average MINUS that tier's hysteresis (the code
subtracts the margin on the next tier); the decision otherwise leaves the
device unchanged.  With both tiers averaging 10 hits (hysteresis 5), 16 hits
promote, 14 do not, and hits exactly equal to average plus hysteresis (15)
never promote. -/
theorem claim4_promotion_rule_amended
    (s : tier_state) (binfo : blockinfo) (h2 : 2 ≤ binfo.device) :
    (migrate_up_newdev s binfo = binfo.device - 1 ↔
      ((s.getBackdev (binfo.device - 1)).devmagic.average_reads
          + (s.getBackdev (binfo.device - 1)).devmagic.average_writes)
        + btier_div ((s.getBackdev (binfo.device - 1)).devmagic.average_reads
          + (s.getBackdev (binfo.device - 1)).devmagic.average_writes)
          s.attached_devices
        < binfo.readcount + binfo.writecount ∧
      ((s.getBackdev (binfo.device - 2)).devmagic.average_reads
          + (s.getBackdev (binfo.device - 2)).devmagic.average_writes)
        - btier_div ((s.getBackdev (binfo.device - 2)).devmagic.average_reads
          + (s.getBackdev (binfo.device - 2)).devmagic.average_writes)
          s.attached_devices
        < binfo.readcount + binfo.writecount) ∧
    (migrate_up_newdev s binfo = binfo.device - 1 ∨
      migrate_up_newdev s binfo = binfo.device) ∧
    migrate_up_newdev sC4b ⟨2, 0, 0, 16, 0⟩ = 1 ∧
    migrate_up_newdev sC4b ⟨2, 0, 0, 14, 0⟩ = 2 ∧
    migrate_up_newdev sC4b ⟨2, 0, 0, 15, 0⟩ = 2 := by
  refine ⟨?_, ?_, by decide, by decide, by decide⟩
  · simp only [migrate_up_newdev]
    rw [if_neg (show ¬ binfo.device ≤ 1 by omega),
      if_pos (show 1 < binfo.device by omega)]
    by_cases hA : ((s.getBackdev (binfo.device - 1)).devmagic.average_reads
        + (s.getBackdev (binfo.device - 1)).devmagic.average_writes)
        + btier_div ((s.getBackdev (binfo.device - 1)).devmagic.average_reads
          + (s.getBackdev (binfo.device - 1)).devmagic.average_writes)
          s.attached_devices
        < binfo.readcount + binfo.writecount
    · rw [if_pos hA]
      by_cases hB : ((s.getBackdev (binfo.device - 2)).devmagic.average_reads
          + (s.getBackdev (binfo.device - 2)).devmagic.average_writes)
          - btier_div ((s.getBackdev (binfo.device - 2)).devmagic.average_reads
            + (s.getBackdev (binfo.device - 2)).devmagic.average_writes)
            s.attached_devices
          < binfo.readcount + binfo.writecount
      · rw [if_pos hB]
        exact ⟨fun _ => ⟨hA, hB⟩, fun _ => rfl⟩
      · rw [if_neg hB]
        exact ⟨fun h => absurd h (by omega), fun h => absurd h.2 hB⟩
    · rw [if_neg hA]
      exact ⟨fun h => absurd h (by omega), fun h => absurd h.1 hA⟩
  · simp only [migrate_up_newdev]
    rw [if_neg (show ¬ binfo.device ≤ 1 by omega),
      if_pos (show 1 < binfo.device by omega)]
    by_cases hA : ((s.getBackdev (binfo.device - 1)).devmagic.average_reads
        + (s.getBackdev (binfo.device - 1)).devmagic.average_writes)
        + btier_div ((s.getBackdev (binfo.device - 1)).devmagic.average_reads
          + (s.getBackdev (binfo.device - 1)).devmagic.average_writes)
          s.attached_devices
        < binfo.readcount + binfo.writecount
    · rw [if_pos hA]
      by_cases hB : ((s.getBackdev (binfo.device - 2)).devmagic.average_reads
          + (s.getBackdev (binfo.device - 2)).devmagic.average_writes)
          - btier_div ((s.getBackdev (binfo.device - 2)).devmagic.average_reads
            + (s.getBackdev (binfo.device - 2)).devmagic.average_writes)
            s.attached_devices
          < binfo.readcount + binfo.writecount
      · rw [if_pos hB]
        exact Or.inl rfl
      · rw [if_neg hB]
        exact Or.inr rfl
    · rw [if_neg hA]
      exact Or.inr rfl

/-- Witness for C4 amended at the scenario state (both tiers average 10,
hysteresis 5): the 16-hit block on tier 1 is promoted to tier 0. -/
theorem claim4_promotion_rule_amended_witness :
    migrate_up_newdev sC4b ⟨2, 0, 0, 16, 0⟩ = 1 :=
  (claim4_promotion_rule_amended sC4b ⟨2, 0, 0, 16, 0⟩ (by decide)).2.2.1

/-- C5 counterexample: on a two-tier device, a block on tier 0 that is cold
(hits 0 against average 100, hysteresis 50) and past hit_collecttime
satisfies the claim's demotion rule (demote_rule_spec: the target tier 1
exists), yet migrate_down_ifneeded (btier_main.c line 878) requires
device + 1 < attached_devices for heat-based demotion, so the decision
leaves the block in place. -/
theorem claim5_demotion_counterexample :
    demote_rule_spec sC5 bC5 100 ∧
    migrate_down_newdev sC5 bC5 100 = bC5.device ∧
    migrate_down_newdev sC5 bC5 100 ≠ bC5.device + 1 := by decide

/-- C5 amended: an allocated block is moved exactly one tier down iff the
age test fires and the target tier exists (device + 1 ≤ attached_devices),
or the age test does not fire, the heat-and-collect-time test fires and
device + 1 is strictly below attached_devices (so heat-based demotion never
reaches the last tier); in every other case the decision leaves the entry's
device unchanged. -/
theorem claim5_demotion_rule_amended
    (s : tier_state) (binfo : blockinfo) (now : Nat)
    (h0 : binfo.device ≠ 0) (hd : binfo.device ≤ s.attached_devices) :
    (migrate_down_newdev s binfo now = binfo.device + 1 ↔
      ((s.getBackdev (binfo.device - 1)).devmagic.dtapolicy.max_age
          < now - binfo.lastused ∧
        binfo.device + 1 ≤ s.attached_devices) ∨
      (¬ (s.getBackdev (binfo.device - 1)).devmagic.dtapolicy.max_age
          < now - binfo.lastused ∧
        (binfo.readcount + binfo.writecount
            < ((s.getBackdev (binfo.device - 1)).devmagic.average_reads
                + (s.getBackdev (binfo.device - 1)).devmagic.average_writes)
              - btier_div ((s.getBackdev (binfo.device - 1)).devmagic.average_reads
                + (s.getBackdev (binfo.device - 1)).devmagic.average_writes)
                s.attached_devices ∧
          (s.getBackdev (binfo.device - 1)).devmagic.dtapolicy.hit_collecttime
            < now - binfo.lastused) ∧
        binfo.device + 1 < s.attached_devices)) ∧
    (migrate_down_newdev s binfo now = binfo.device + 1 ∨
      migrate_down_newdev s binfo now = binfo.device) := by
  simp only [migrate_down_newdev]
  rw [if_neg h0]
  by_cases hA : (s.getBackdev (binfo.device - 1)).devmagic.dtapolicy.max_age
      < now - binfo.lastused
  · rw [if_pos hA]
    by_cases hres : s.attached_devices < binfo.device + 1
    · rw [if_pos hres]
      constructor
      · constructor
        · intro h
          exact absurd h (by omega)
        · rintro (⟨_, hle⟩ | ⟨hna, _, _⟩)
          · omega
          · exact absurd hA hna
      · exact Or.inr rfl
    · rw [if_neg hres]
      exact ⟨⟨fun _ => Or.inl ⟨hA, by omega⟩, fun _ => rfl⟩, Or.inl rfl⟩
  · rw [if_neg hA]
    by_cases hB : binfo.readcount + binfo.writecount
        < ((s.getBackdev (binfo.device - 1)).devmagic.average_reads
            + (s.getBackdev (binfo.device - 1)).devmagic.average_writes)
          - btier_div ((s.getBackdev (binfo.device - 1)).devmagic.average_reads
            + (s.getBackdev (binfo.device - 1)).devmagic.average_writes)
            s.attached_devices ∧
        (s.getBackdev (binfo.device - 1)).devmagic.dtapolicy.hit_collecttime
          < now - binfo.lastused
    · rw [if_pos hB]
      by_cases hC : binfo.device + 1 < s.attached_devices
      · rw [if_pos hC, if_neg (show ¬ s.attached_devices < binfo.device + 1 by omega)]
        exact ⟨⟨fun _ => Or.inr ⟨hA, hB, hC⟩, fun _ => rfl⟩, Or.inl rfl⟩
      · rw [if_neg hC, if_neg (show ¬ s.attached_devices < binfo.device by omega)]
        constructor
        · constructor
          · intro h
            exact absurd h (by omega)
          · rintro (⟨ha, _⟩ | ⟨_, _, hc⟩)
            · exact absurd ha hA
            · exact absurd hc hC
        · exact Or.inr rfl
    · rw [if_neg hB, if_neg (show ¬ s.attached_devices < binfo.device by omega)]
      constructor
      · constructor
        · intro h
          exact absurd h (by omega)
        · rintro (⟨ha, _⟩ | ⟨_, hb, _⟩)
          · exact absurd ha hA
          · exact absurd hb hB
      · exact Or.inr rfl

/-- Witness for C5 amended at the counterexample state: the iff evaluates
the cold tier-0 block's decision to keep the block in place. -/
theorem claim5_demotion_rule_amended_witness :
    migrate_down_newdev sC5 bC5 100 = bC5.device + 1 ∨
    migrate_down_newdev sC5 bC5 100 = bC5.device :=
  (claim5_demotion_rule_amended sC5 bC5 100 (by decide) (by decide)).2

/-- C9: counter decay boundary.  In the decay step of walk_blocklist, a
block whose readcount equals MAX_STAT_COUNT has its readcount reduced by
exactly MAX_STAT_DECAY and the owning tier's total_reads reduced by the
same amount (given the total is at least the decrement and below 2^64, so
the u64 subtraction does not wrap); a counter strictly below the ceiling is
untouched and so is the total; writes behave symmetrically. -/
theorem claim9_counter_decay (binfo : blockinfo) (dm : devicemagic)
    (htr : MAX_STAT_DECAY ≤ dm.total_reads) (htr2 : dm.total_reads < U64_MOD)
    (htw : MAX_STAT_DECAY ≤ dm.total_writes) (htw2 : dm.total_writes < U64_MOD) :
    (binfo.readcount = MAX_STAT_COUNT →
      (stat_decay binfo dm).1.readcount = MAX_STAT_COUNT - MAX_STAT_DECAY ∧
      (stat_decay binfo dm).2.total_reads = dm.total_reads - MAX_STAT_DECAY) ∧
    (binfo.readcount < MAX_STAT_COUNT →
      (stat_decay binfo dm).1.readcount = binfo.readcount ∧
      (stat_decay binfo dm).2.total_reads = dm.total_reads) ∧
    (binfo.writecount = MAX_STAT_COUNT →
      (stat_decay binfo dm).1.writecount = MAX_STAT_COUNT - MAX_STAT_DECAY ∧
      (stat_decay binfo dm).2.total_writes = dm.total_writes - MAX_STAT_DECAY) ∧
    (binfo.writecount < MAX_STAT_COUNT →
      (stat_decay binfo dm).1.writecount = binfo.writecount ∧
      (stat_decay binfo dm).2.total_writes = dm.total_writes) := by
  refine ⟨fun h => ?_, fun h => ?_, fun h => ?_, fun h => ?_⟩
  · simp only [stat_decay]
    simp only [if_pos (show MAX_STAT_COUNT ≤ binfo.readcount by omega)]
    exact ⟨by rw [h], u64_sub_of_le htr htr2⟩
  · simp only [stat_decay]
    simp only [if_neg (show ¬ MAX_STAT_COUNT ≤ binfo.readcount by omega)]
    exact ⟨trivial, trivial⟩
  · simp only [stat_decay]
    simp only [if_pos (show MAX_STAT_COUNT ≤ binfo.writecount by omega)]
    exact ⟨by rw [h], u64_sub_of_le htw htw2⟩
  · simp only [stat_decay]
    simp only [if_neg (show ¬ MAX_STAT_COUNT ≤ binfo.writecount by omega)]
    exact ⟨trivial, trivial⟩

/-- Witness for C9: a block sitting exactly at the ceiling decays by the
fixed decrement, and the tier total drops by the same amount. -/
theorem claim9_counter_decay_witness :
    (stat_decay ⟨1, 0, 0, MAX_STAT_COUNT, 0⟩ dmW9).1.readcount
      = MAX_STAT_COUNT - MAX_STAT_DECAY ∧
    (stat_decay ⟨1, 0, 0, MAX_STAT_COUNT, 0⟩ dmW9).2.total_reads
      = MAX_STAT_COUNT - MAX_STAT_DECAY :=
  (claim9_counter_decay ⟨1, 0, 0, MAX_STAT_COUNT, 0⟩ dmW9
    (by decide) (by decide) (by decide) (by decide)).1 rfl

/-- C10: every call to write_blocklist, whatever the policy (WC included),
first overwrites the entry's lastused field with the current time, so the
elapsed-age expression read by the age-based demotion test is zero right
after any commit, statistics-only WC commits included; under any policy
other than WD the refreshed entry also lands in the cache. -/
theorem claim10_write_blocklist_lastused
    (s : tier_state) (blocknr : Nat) (binfo : blockinfo)
    (pol : write_policy) (now : Nat)
    (hlen : blocknr < s.blocklist.length) :
    (write_blocklist s blocknr binfo pol now).2.1.lastused = now ∧
    now - (write_blocklist s blocknr binfo pol now).2.1.lastused = 0 ∧
    (pol ≠ write_policy.WD →
      (write_blocklist s blocknr binfo pol now).2.2.blocklist.getD blocknr
        blockinfo.zero = { binfo with lastused := now }) := by
  refine ⟨?_, ?_, ?_⟩
  · rw [write_blocklist_binfo]
  · rw [write_blocklist_binfo]
    exact Nat.sub_self now
  · intro hpol
    cases pol with
    | WA =>
      rw [write_blocklist_WA_blocklist]
      exact list_getD_set_self _ _ _ _ hlen
    | WD => exact absurd rfl hpol
    | WC =>
      rw [write_blocklist_WC_blocklist]
      exact list_getD_set_self _ _ _ _ hlen

/-- Witness for C10: a WC (cache-only, statistics) commit of block 0 at
time 42 stamps lastused with 42 in the returned entry and in the cache. -/
theorem claim10_write_blocklist_lastused_witness :
    (write_blocklist sW10 0 ⟨0, 7, 3, 4, 5⟩ write_policy.WC 42).2.1.lastused = 42 ∧
    (write_blocklist sW10 0 ⟨0, 7, 3, 4, 5⟩ write_policy.WC 42).2.2.blocklist.getD 0
      blockinfo.zero = ⟨0, 7, 42, 4, 5⟩ := by
  have h := claim10_write_blocklist_lastused sW10 0 ⟨0, 7, 3, 4, 5⟩
    write_policy.WC 42 (by decide)
  exact ⟨h.1, h.2.2 (by decide)⟩

theorem walk_visit_rest_ghost (t : tier_state) (di curblock now : Nat) (moveRes : Int) :
    (walk_visit_rest t di curblock now moveRes).ghost_avg_recomputes
      = t.ghost_avg_recomputes := by
  simp only [walk_visit_rest]
  by_cases hres : (migrate_down_ifneeded t curblock now moveRes).1 ≠ 0
  · rw [if_pos hres]
    exact migrate_down_ghost _ _ _ _
  · rw [if_neg hres]
    rw [update_blocklist_ghost]
    rw [setBackdev_ghost]
    rw [migrate_up_ghost, migrate_down_ghost]

/-- C7 (code bug): resize data relocation.  migrate_data_if_needed is meant
to move every tier-0 block inside the future blocklist region off tier 0 and
then let do_resize_tier relocate the blocklist, but the loop's test
(btier_main.c line 2248: if not cbres then res is set to -1 and the loop
breaks) is inverted: at the state sC7, whose single overlapping block
migrates successfully, the function returns -1 (so do_resize_tier line 2297
aborts and the blocklist is never relocated), and when the same block's copy
fails (moveRes = -5) it returns 0 with the block still on tier 0, letting
the blocklist be relocated over live data. -/
theorem claim7_resize_migration_bug :
    (migrate_data_if_needed sC7 0 BLKSIZE 1 5 0).1 = -1 ∧
    ((migrate_data_if_needed sC7 0 BLKSIZE 1 5 0).2.blocklist.getD 0
      blockinfo.zero).device = 2 ∧
    (migrate_data_if_needed sC7 0 BLKSIZE 1 5 (-5)).1 = 0 ∧
    ((migrate_data_if_needed sC7 0 BLKSIZE 1 5 (-5)).2.blocklist.getD 0
      blockinfo.zero).device = 1 := by decide

/-- C8 counterexample: in a single uninterrupted walker pass over sC8 (two
allocated blocks on tier 0), the ghost counter of average recomputations for
tier 0 reaches 2, so the averages are not recomputed once per tier per pass. -/
theorem claim8_average_recompute_counterexample :
    ¬ ((walk_blocklist sC8 5 0).ghost_avg_recomputes.getD 0 0 ≤ 1) := by decide

/-- C8 amended: during a walker pass the tier averages are recomputed at
every visit of an allocated block: one visit of an allocated block increments
the ghost recomputation counter of the block's tier by exactly one, and the
pass over sC8 (two allocated tier-0 blocks) recomputes tier 0's averages
twice. -/
theorem claim8_average_recompute_amended
    (s : tier_state) (curblock now : Nat) (moveRes : Int)
    (hlive : (s.blocklist.getD curblock blockinfo.zero).device ≠ 0)
    (hlen : (s.blocklist.getD curblock blockinfo.zero).device - 1
        < s.ghost_avg_recomputes.length) :
    (walk_visit s curblock now moveRes).ghost_avg_recomputes.getD
        ((s.blocklist.getD curblock blockinfo.zero).device - 1) 0
      = s.ghost_avg_recomputes.getD
          ((s.blocklist.getD curblock blockinfo.zero).device - 1) 0 + 1 ∧
    (walk_blocklist sC8 5 0).ghost_avg_recomputes.getD 0 0 = 2 := by
  refine ⟨?_, by decide⟩
  simp only [walk_visit]
  rw [if_neg hlive]
  rw [walk_visit_rest_ghost]
  rw [setBackdev_ghost]
  exact list_getD_set_self _ _ _ _ hlen

/-- Witness for C8 amended: visiting block 0 of sC8 bumps tier 0's ghost
recomputation counter from 0 to 1. -/
theorem claim8_average_recompute_amended_witness :
    (walk_visit sC8 0 5 0).ghost_avg_recomputes.getD 0 0
      = sC8.ghost_avg_recomputes.getD 0 0 + 1 :=
  (claim8_average_recompute_amended sC8 0 5 0 (by decide) (by decide)).1

/-- C6: allocation search and cursor behaviour.  Under the standing
invariant that every slot strictly below the cursor is allocated (clear
lowers the cursor to every freed slot, so the scan's page-aligned start
never skips a free slot), a successful allocate_dev returns the first
non-allocated slot at or after the cursor, marks it ALLOCATED, moves the
cursor to that slot's index and sets the entry's offset inside the tier's
data region; when the first candidate would extend past the end of the data
region the call fails with the device field left 0 and the state unchanged
(that failure case and the whole concrete scenario are the closed
conjuncts: on a tier with exactly one free slot the first allocation
succeeds at slot 3, a second allocation fails out of space leaving the
state unchanged, and after clear_dev_list frees the slot the next
allocation succeeds and reuses it); clear_dev_list marks the slot free and
lowers the cursor to the freed index exactly when that index is below the
current cursor. -/
theorem claim6_allocation_cursor
    (s : tier_state) (blocknr d : Nat) (b0 : blockinfo)
    (hb : b0.device = 0)
    (hd : d < s.backdev.length)
    (hwf : (s.getBackdev d).endofdata ≤
      (s.getBackdev d).startofdata + (s.getBackdev d).bitlist.length * BLKSIZE)
    (hcursor : ∀ k, k < (s.getBackdev d).free_offset →
      (s.getBackdev d).bitlist.getD k UNALLOCATED = ALLOCATED)
    (hsucc : (allocate_dev s blocknr b0 d).1.device ≠ 0) :
    (∃ idx,
      (s.getBackdev d).free_offset ≤ idx ∧
      (s.getBackdev d).bitlist.getD idx UNALLOCATED ≠ ALLOCATED ∧
      (∀ k, (s.getBackdev d).free_offset ≤ k → k < idx →
        (s.getBackdev d).bitlist.getD k UNALLOCATED = ALLOCATED) ∧
      (allocate_dev s blocknr b0 d).1.device = d + 1 ∧
      (allocate_dev s blocknr b0 d).1.offset
        = idx * BLKSIZE + (s.getBackdev d).startofdata ∧
      (s.getBackdev d).startofdata ≤ (allocate_dev s blocknr b0 d).1.offset ∧
      (allocate_dev s blocknr b0 d).1.offset + BLKSIZE ≤ (s.getBackdev d).endofdata ∧
      ((allocate_dev s blocknr b0 d).2.getBackdev d).free_offset = idx ∧
      ((allocate_dev s blocknr b0 d).2.getBackdev d).bitlist.getD idx UNALLOCATED
        = ALLOCATED) ∧
    (∀ (t : tier_state) (b : blockinfo), b.device - 1 < t.backdev.length →
      ((clear_dev_list t b).getBackdev (b.device - 1)).bitlist
        = (t.getBackdev (b.device - 1)).bitlist.set
            ((b.offset - (t.getBackdev (b.device - 1)).startofdata) >>> BLK_SHIFT)
            UNALLOCATED ∧
      ((clear_dev_list t b).getBackdev (b.device - 1)).free_offset
        = if (b.offset - (t.getBackdev (b.device - 1)).startofdata) >>> BLK_SHIFT
              < (t.getBackdev (b.device - 1)).free_offset
          then (b.offset - (t.getBackdev (b.device - 1)).startofdata) >>> BLK_SHIFT
          else (t.getBackdev (b.device - 1)).free_offset) ∧
    ((allocate_dev sC6 0 blockinfo.zero 0).1.device = 1 ∧
     (allocate_dev sC6 0 blockinfo.zero 0).1.offset = 3 * BLKSIZE ∧
     (sC6a.getBackdev 0).free_offset = 3 ∧
     (allocate_dev sC6a 1 blockinfo.zero 0).1.device = 0 ∧
     (allocate_dev sC6a 1 blockinfo.zero 0).2 = sC6a ∧
     (allocate_dev sC6c 2 blockinfo.zero 0).1.device = 1 ∧
     (allocate_dev sC6c 2 blockinfo.zero 0).1.offset = 3 * BLKSIZE) := by
  refine ⟨?_, ?_, by decide⟩
  · obtain ⟨idx, hfind, hfresh, hbound, hba, hsa⟩ :=
      allocate_dev_succ s blocknr b0 d hb hsucc
    obtain ⟨_, hpge, hmin⟩ := find_free_byte_eq_some _ _ _ _ _ hfind
    have hpage : ((s.getBackdev d).free_offset >>> PAGE_SHIFT) * PAGE_SIZE
        ≤ (s.getBackdev d).free_offset := by
      rw [Nat.shiftRight_eq_div_pow]
      exact Nat.div_mul_le_self _ _
    have hge : (s.getBackdev d).free_offset ≤ idx := by
      by_contra hlt
      push_neg at hlt
      exact hfresh (hcursor idx hlt)
    have hidxlen : idx < (s.getBackdev d).bitlist.length := by
      have hstep : (idx + 1) * BLKSIZE ≤ (s.getBackdev d).bitlist.length * BLKSIZE := by
        rw [Nat.succ_mul]
        omega
      exact Nat.lt_of_succ_le
        (Nat.le_of_mul_le_mul_right hstep (by decide : 0 < BLKSIZE))
    refine ⟨idx, hge, hfresh, ?_, ?_, ?_, ?_, ?_, ?_, ?_⟩
    · intro k hk1 hk2
      exact hmin k (Nat.le_trans hpage hk1) hk2
    · rw [hba]
    · rw [hba]
    · rw [hba]
      exact Nat.le_add_left _ _
    · rw [hba]
      exact hbound
    · rw [hsa, getBackdev_setBackdev_self _ _ _ hd]
    · rw [hsa, getBackdev_setBackdev_self _ _ _ hd]
      exact list_getD_set_self _ _ _ _ hidxlen
  · intro t b hbd
    rw [clear_dev_list_getBackdev_self _ _ hbd]
    exact ⟨rfl, rfl⟩

/-- Witness for C6 at the one-free-slot state sC6: the allocation succeeds,
returns the last slot, and moves the cursor to it. -/
theorem claim6_allocation_cursor_witness :
    (allocate_dev sC6 0 blockinfo.zero 0).1.device = 1 ∧
    (allocate_dev sC6 0 blockinfo.zero 0).1.offset = 3 * BLKSIZE ∧
    (allocate_dev sC6a 1 blockinfo.zero 0).1.device = 0 := by
  have h := (claim6_allocation_cursor sC6 0 0 blockinfo.zero rfl (by decide)
    (by decide) (by decide) (by decide)).2.2
  exact ⟨h.1, h.2.1, h.2.2.2.1⟩

theorem slot_offset_recover (start off : Nat) (h1 : start ≤ off)
    (h2 : (off - start) % BLKSIZE = 0) :
    off = ((off - start) >>> BLK_SHIFT) * BLKSIZE + start := by
  rw [Nat.shiftRight_eq_div_pow]
  have hdvd : BLKSIZE ∣ (off - start) := Nat.dvd_of_mod_eq_zero h2
  have h3 : (off - start) / 2 ^ BLK_SHIFT * BLKSIZE = off - start := by
    show (off - start) / BLKSIZE * BLKSIZE = off - start
    exact Nat.div_mul_cancel hdvd
  omega

theorem slot_of_fresh_idx (idx start : Nat) :
    (idx * BLKSIZE + start - start) >>> BLK_SHIFT = idx := by
  rw [Nat.add_sub_cancel, Nat.shiftRight_eq_div_pow]
  show idx * BLKSIZE / BLKSIZE = idx
  exact Nat.mul_div_cancel idx (by decide)

theorem fresh_align (idx start : Nat) :
    (idx * BLKSIZE + start - start) % BLKSIZE = 0 := by
  rw [Nat.add_sub_cancel]
  exact Nat.mul_mod_left idx BLKSIZE

theorem idx_lt_bitlen (idx len start endo : Nat)
    (hb : idx * BLKSIZE + start + BLKSIZE ≤ endo)
    (hc : endo ≤ start + len * BLKSIZE) : idx < len := by
  have hstep : (idx + 1) * BLKSIZE ≤ len * BLKSIZE := by
    rw [Nat.succ_mul]
    omega
  exact Nat.lt_of_succ_le (Nat.le_of_mul_le_mul_right hstep (by decide))

theorem migrate_inv_transfer
    (s F : tier_state) (curblock d org idx sold now : Nat)
    (old ndf : blockinfo)
    (hInv : tier_inv s)
    (hcur : curblock < s.blocklist.length)
    (hold : s.blocklist.getD curblock blockinfo.zero = old)
    (holdlive : old.device ≠ 0)
    (horgdef : org = old.device - 1)
    (hsold : sold = (old.offset - (s.getBackdev org).startofdata) >>> BLK_SHIFT)
    (hd_att : d < s.attached_devices)
    (hdorg : d ≠ org)
    (hndf : ndf = ⟨d + 1, idx * BLKSIZE + (s.getBackdev d).startofdata, now, 0, 0⟩)
    (hfresh : (s.getBackdev d).bitlist.getD idx UNALLOCATED ≠ ALLOCATED)
    (hbound : idx * BLKSIZE + (s.getBackdev d).startofdata + BLKSIZE
      ≤ (s.getBackdev d).endofdata)
    (hblk : F.blocklist = s.blocklist.set curblock ndf)
    (hatt : F.attached_devices = s.attached_devices)
    (hlenF : F.backdev.length = s.backdev.length)
    (hstart : ∀ j, (F.getBackdev j).startofdata = (s.getBackdev j).startofdata)
    (hend : ∀ j, (F.getBackdev j).endofdata = (s.getBackdev j).endofdata)
    (hbitlen : ∀ j, (F.getBackdev j).bitlist.length = (s.getBackdev j).bitlist.length)
    (hbit_d : (F.getBackdev d).bitlist = (s.getBackdev d).bitlist.set idx ALLOCATED)
    (hbit_org : (F.getBackdev org).bitlist
      = (s.getBackdev org).bitlist.set sold UNALLOCATED)
    (hbit_other : ∀ j, j ≠ d → j ≠ org →
      (F.getBackdev j).bitlist = (s.getBackdev j).bitlist) :
    tier_inv F := by
  obtain ⟨⟨hblen, hcover⟩, hcons, huni⟩ := hInv
  have holdok : entry_live_ok s old := by
    have h := hcons curblock hcur (by rw [hold]; exact holdlive)
    rw [hold] at h
    exact h
  have hidxlen : idx < (s.getBackdev d).bitlist.length :=
    idx_lt_bitlen idx (s.getBackdev d).bitlist.length (s.getBackdev d).startofdata
      (s.getBackdev d).endofdata hbound (hcover d hd_att)
  have hflen : F.blocklist.length = s.blocklist.length := by
    rw [hblk]
    exact List.length_set _ _ _
  have hgetF : ∀ i, i ≠ curblock →
      F.blocklist.getD i blockinfo.zero = s.blocklist.getD i blockinfo.zero := by
    intro i hi
    rw [hblk]
    exact list_getD_set_ne _ _ _ _ _ (fun e => hi e.symm)
  have hgetFcur : F.blocklist.getD curblock blockinfo.zero = ndf := by
    rw [hblk]
    exact list_getD_set_self _ _ _ _ hcur
  -- an entry of s on tier org with the freed slot must be the migrating block
  have hslot_unique : ∀ i, i < s.blocklist.length → i ≠ curblock →
      (s.blocklist.getD i blockinfo.zero).device ≠ 0 →
      (s.blocklist.getD i blockinfo.zero).device - 1 = org →
      ((s.blocklist.getD i blockinfo.zero).offset
          - (s.getBackdev org).startofdata) >>> BLK_SHIFT ≠ sold := by
    intro i hi hicur hilive hitier heq
    have hiok := hcons i hi hilive
    have hioff : (s.blocklist.getD i blockinfo.zero).offset
        = (((s.blocklist.getD i blockinfo.zero).offset
            - (s.getBackdev org).startofdata) >>> BLK_SHIFT) * BLKSIZE
          + (s.getBackdev org).startofdata := by
      exact slot_offset_recover (s.getBackdev org).startofdata
        (s.blocklist.getD i blockinfo.zero).offset
        (by rw [← hitier]; exact hiok.2.1) (by rw [← hitier]; exact hiok.2.2.1)
    have holdoff : old.offset = sold * BLKSIZE + (s.getBackdev org).startofdata := by
      rw [hsold]
      exact slot_offset_recover (s.getBackdev org).startofdata old.offset
        (by rw [horgdef]; exact holdok.2.1) (by rw [horgdef]; exact holdok.2.2.1)
    have hdev : (s.blocklist.getD i blockinfo.zero).device = old.device := by
      omega
    have := huni i hi curblock hcur hicur hilive (by rw [hold]; exact holdlive)
    rw [hold] at this
    exact this ⟨hdev, by rw [hioff, heq, ← holdoff]⟩
  refine ⟨⟨?_, ?_⟩, ?_, ?_⟩
  · rw [hlenF, hatt]
    exact hblen
  · intro j hj
    rw [hatt] at hj
    rw [hstart j, hend j, hbitlen j]
    exact hcover j hj
  · intro i hi hilive
    by_cases hicur : i = curblock
    · subst hicur
      rw [hgetFcur]
      rw [hgetFcur] at hilive
      refine ⟨?_, ?_, ?_, ?_, ?_⟩
      · rw [hndf, hatt]
        show d + 1 ≤ s.attached_devices
        omega
      · rw [hndf]
        show (F.getBackdev d).startofdata ≤ idx * BLKSIZE + (s.getBackdev d).startofdata
        rw [hstart d]
        exact Nat.le_add_left _ _
      · rw [hndf]
        show (idx * BLKSIZE + (s.getBackdev d).startofdata
            - (F.getBackdev d).startofdata) % BLKSIZE = 0
        rw [hstart d]
        exact fresh_align idx _
      · rw [hndf]
        show idx * BLKSIZE + (s.getBackdev d).startofdata + BLKSIZE
            ≤ (F.getBackdev d).endofdata
        rw [hend d]
        exact hbound
      · rw [hndf]
        show (F.getBackdev d).bitlist.getD
            ((idx * BLKSIZE + (s.getBackdev d).startofdata
              - (F.getBackdev d).startofdata) >>> BLK_SHIFT) UNALLOCATED = ALLOCATED
        rw [hstart d, slot_of_fresh_idx, hbit_d]
        exact list_getD_set_self _ _ _ _ hidxlen
    · rw [hgetF i hicur]
      rw [hgetF i hicur] at hilive
      have hi' : i < s.blocklist.length := by rw [← hflen]; exact hi
      have hiok := hcons i hi' hilive
      set e := s.blocklist.getD i blockinfo.zero with he
      refine ⟨?_, ?_, ?_, ?_, ?_⟩
      · rw [hatt]
        exact hiok.1
      · rw [hstart (e.device - 1)]
        exact hiok.2.1
      · rw [hstart (e.device - 1)]
        exact hiok.2.2.1
      · rw [hend (e.device - 1)]
        exact hiok.2.2.2.1
      · rw [hstart (e.device - 1)]
        by_cases hjd : e.device - 1 = d
        · rw [hjd, hbit_d]
          by_cases hsloteq : (e.offset - (s.getBackdev d).startofdata) >>> BLK_SHIFT = idx
          · rw [hsloteq]
            exact list_getD_set_self _ _ _ _ hidxlen
          · rw [list_getD_set_ne _ _ _ _ _ (fun h => hsloteq h.symm)]
            rw [← hjd]
            exact hiok.2.2.2.2
        · by_cases hjorg : e.device - 1 = org
          · rw [hjorg, hbit_org]
            have hne := hslot_unique i hi' hicur hilive (by rw [← he]; exact hjorg)
            rw [list_getD_set_ne _ _ _ _ _ (fun h => hne h.symm)]
            have hib := hiok.2.2.2.2
            rw [hjorg] at hib
            exact hib
          · rw [hbit_other (e.device - 1) hjd hjorg]
            exact hiok.2.2.2.2
  · intro i hi j hj hij hlivei hlivej
    rw [hflen] at hi hj
    by_cases hicur : i = curblock
    · by_cases hjcur : j = curblock
      · exact absurd (hicur.trans hjcur.symm) hij
      · rw [hicur, hgetFcur, hgetF j hjcur]
        rw [hgetF j hjcur] at hlivej
        rintro ⟨hdev, hoff⟩
        have hjok := hcons j hj hlivej
        rw [hndf] at hdev hoff
        have hdev2 : (s.blocklist.getD j blockinfo.zero).device = d + 1 := hdev.symm
        have hoff2 : (s.blocklist.getD j blockinfo.zero).offset
            = idx * BLKSIZE + (s.getBackdev d).startofdata := hoff.symm
        have hjd : (s.blocklist.getD j blockinfo.zero).device - 1 = d := by omega
        have hjslot : ((s.blocklist.getD j blockinfo.zero).offset
            - (s.getBackdev d).startofdata) >>> BLK_SHIFT = idx := by
          rw [hoff2]
          exact slot_of_fresh_idx idx _
        have hjbit := hjok.2.2.2.2
        rw [hjd] at hjbit
        rw [hjslot] at hjbit
        exact hfresh hjbit
    · by_cases hjcur : j = curblock
      · rw [hjcur, hgetFcur, hgetF i hicur]
        rw [hgetF i hicur] at hlivei
        rintro ⟨hdev, hoff⟩
        have hiok := hcons i hi hlivei
        rw [hndf] at hdev hoff
        have hdev2 : (s.blocklist.getD i blockinfo.zero).device = d + 1 := hdev
        have hoff2 : (s.blocklist.getD i blockinfo.zero).offset
            = idx * BLKSIZE + (s.getBackdev d).startofdata := hoff
        have hid : (s.blocklist.getD i blockinfo.zero).device - 1 = d := by omega
        have hislot : ((s.blocklist.getD i blockinfo.zero).offset
            - (s.getBackdev d).startofdata) >>> BLK_SHIFT = idx := by
          rw [hoff2]
          exact slot_of_fresh_idx idx _
        have hibit := hiok.2.2.2.2
        rw [hid] at hibit
        rw [hislot] at hibit
        exact hfresh hibit
      · rw [hgetF i hicur, hgetF j hjcur]
        rw [hgetF i hicur] at hlivei
        rw [hgetF j hjcur] at hlivej
        exact huni i hi j hj hij hlivei hlivej
theorem migration_tail_eq (X : tier_state) (cb now : Nat) (nA old : blockinfo) :
    clear_dev_list (reset_counters_on_migration
      (clean_blocklist_journal (copyblock_stage_commit X nA old cb now).2
        (old.device - 1)) old) old = migration_tail X cb now nA old := rfl

theorem migration_tail_components (X : tier_state) (cb now : Nat) (nA old : blockinfo)
    (hdvlen : old.device - 1 < X.backdev.length) :
    (migration_tail X cb now nA old).blocklist
        = X.blocklist.set cb { nA with lastused := now } ∧
    (migration_tail X cb now nA old).attached_devices = X.attached_devices ∧
    (migration_tail X cb now nA old).backdev.length = X.backdev.length ∧
    (∀ j, ((migration_tail X cb now nA old).getBackdev j).startofdata
        = (X.getBackdev j).startofdata) ∧
    (∀ j, ((migration_tail X cb now nA old).getBackdev j).endofdata
        = (X.getBackdev j).endofdata) ∧
    (∀ j, ((migration_tail X cb now nA old).getBackdev j).bitlist.length
        = (X.getBackdev j).bitlist.length) ∧
    ((migration_tail X cb now nA old).getBackdev (old.device - 1)).bitlist
        = (X.getBackdev (old.device - 1)).bitlist.set
            ((old.offset - (X.getBackdev (old.device - 1)).startofdata) >>> BLK_SHIFT)
            UNALLOCATED ∧
    (∀ j, j ≠ old.device - 1 →
      ((migration_tail X cb now nA old).getBackdev j).bitlist
        = (X.getBackdev j).bitlist) := by
  unfold migration_tail
  set R := reset_counters_on_migration
    (clean_blocklist_journal
      (write_blocklist (write_blocklist_journal X cb nA old)
        cb nA write_policy.WA now).2.2
      (old.device - 1)) old with hRdef
  have hRst : ∀ j, (R.getBackdev j).startofdata = (X.getBackdev j).startofdata := by
    intro j
    rw [hRdef, (reset_counters_components _ _ j).2.2.2.2.2.1,
        (clean_blocklist_journal_components _ _ j).2.2.2.2.2.1,
        write_blocklist_getBackdev,
        (write_blocklist_journal_components _ _ _ _ j).2.2.2.2.2.1]
  have hRend : ∀ j, (R.getBackdev j).endofdata = (X.getBackdev j).endofdata := by
    intro j
    rw [hRdef, (reset_counters_components _ _ j).2.2.2.2.2.2.1,
        (clean_blocklist_journal_components _ _ j).2.2.2.2.2.2.1,
        write_blocklist_getBackdev,
        (write_blocklist_journal_components _ _ _ _ j).2.2.2.2.2.2.1]
  have hRbit : ∀ j, (R.getBackdev j).bitlist = (X.getBackdev j).bitlist := by
    intro j
    rw [hRdef, (reset_counters_components _ _ j).2.2.2.2.2.2.2.1,
        (clean_blocklist_journal_components _ _ j).2.2.2.2.2.2.2.1,
        write_blocklist_getBackdev,
        (write_blocklist_journal_components _ _ _ _ j).2.2.2.2.2.2.2.1]
  have hRlen : R.backdev.length = X.backdev.length := by
    rw [hRdef, (reset_counters_components _ _ 0).2.2.2.2.1,
        (clean_blocklist_journal_components _ _ 0).2.2.2.2.1]
    rw [show ((write_blocklist (write_blocklist_journal X cb nA old)
          cb nA write_policy.WA now).2.2.backdev)
        = (write_blocklist_journal X cb nA old).backdev from
        write_blocklist_backdev _ _ _ _ _]
    exact (write_blocklist_journal_components _ _ _ _ 0).2.2.2.2.1
  have hRblk : R.blocklist = X.blocklist.set cb { nA with lastused := now } := by
    rw [hRdef, (reset_counters_components _ _ 0).1,
        (clean_blocklist_journal_components _ _ 0).1,
        write_blocklist_WA_blocklist,
        (write_blocklist_journal_components _ _ _ _ 0).1]
  have hRatt : R.attached_devices = X.attached_devices := by
    rw [hRdef, (reset_counters_components _ _ 0).2.2.1,
        (clean_blocklist_journal_components _ _ 0).2.2.1,
        write_blocklist_attached,
        (write_blocklist_journal_components _ _ _ _ 0).2.2.1]
  have hdvR : old.device - 1 < R.backdev.length := by rw [hRlen]; exact hdvlen
  have hFself := clear_dev_list_getBackdev_self R old hdvR
  refine ⟨?_, ?_, ?_, ?_, ?_, ?_, ?_, ?_⟩
  · rw [(clear_dev_list_components _ _).1]
    exact hRblk
  · rw [(clear_dev_list_components _ _).2.2.1]
    exact hRatt
  · rw [(clear_dev_list_components _ _).2.2.2.2]
    exact hRlen
  · intro j
    by_cases hj : old.device - 1 = j
    · rw [← hj, hFself]
      exact hRst _
    · rw [clear_dev_list_getBackdev_ne _ _ _ hj]
      exact hRst j
  · intro j
    by_cases hj : old.device - 1 = j
    · rw [← hj, hFself]
      exact hRend _
    · rw [clear_dev_list_getBackdev_ne _ _ _ hj]
      exact hRend j
  · intro j
    by_cases hj : old.device - 1 = j
    · rw [← hj, hFself]
      show (((R.getBackdev (old.device - 1)).bitlist.set
          ((old.offset - (R.getBackdev (old.device - 1)).startofdata) >>> BLK_SHIFT)
          UNALLOCATED)).length = (X.getBackdev (old.device - 1)).bitlist.length
      rw [List.length_set, hRbit _]
    · rw [clear_dev_list_getBackdev_ne _ _ _ hj, hRbit j]
  · rw [hFself]
    show ((R.getBackdev (old.device - 1)).bitlist.set
        ((old.offset - (R.getBackdev (old.device - 1)).startofdata) >>> BLK_SHIFT)
        UNALLOCATED)
      = (X.getBackdev (old.device - 1)).bitlist.set
          ((old.offset - (X.getBackdev (old.device - 1)).startofdata) >>> BLK_SHIFT)
          UNALLOCATED
    rw [hRbit _, hRst _]
  · intro j hj
    rw [clear_dev_list_getBackdev_ne _ _ _ (Ne.symm hj), hRbit j]
/-- C1: allocation uniqueness is preserved by a successful migration.  If
the tier invariant holds (each live blocklist entry names an existing tier,
is block-aligned inside that tier's data region with its bitmap slot
ALLOCATED, and no two live entries share a (tier, offset) pair), and
copyblock succeeds in migrating live block curblock from its old entry to a
tier of the requested target entry, then after the callers' accounting
(reset_counters_on_migration and clear_dev_list on the old entry,
btier_main.c lines 831-834) the invariant holds again: the new entry
occupies a slot that allocate_dev found free, the freed slot belonged only
to the migrated block, and no two live blocks reference the same (tier,
offset) pair. -/
theorem claim1_allocation_uniqueness
    (s : tier_state) (curblock now : Nat) (old ndin : blockinfo)
    (hInv : tier_inv s)
    (hcur : curblock < s.blocklist.length)
    (hold : s.blocklist.getD curblock blockinfo.zero = old)
    (holdlive : old.device ≠ 0)
    (hndin : ndin.device ≠ 0)
    (htarget : ndin.device - 1 < s.attached_devices)
    (hsucc : (copyblock s ndin old curblock now 0).1 = 0) :
    tier_inv (clear_dev_list (reset_counters_on_migration
      (copyblock s ndin old curblock now 0).2.2 old) old) := by
  obtain ⟨hne, halloc, hbres, hstate⟩ := copyblock_succ_struct s ndin old curblock now hsucc
  obtain ⟨idx, hfind, hfresh, hbound, hres1, hres2⟩ :=
    allocate_dev_succ s curblock
      { ndin with readcount := 0, writecount := 0, lastused := now, device := 0 }
      (ndin.device - 1) rfl halloc
  have hblen : s.backdev.length = s.attached_devices := hInv.1.1
  have holdok := hInv.2.1 curblock hcur (by rw [hold]; exact holdlive)
  rw [hold] at holdok
  have holdle : old.device ≤ s.attached_devices := holdok.1
  have hdlen : ndin.device - 1 < s.backdev.length := by omega
  have hA : ∀ j,
      (((s.setBackdev (ndin.device - 1)
        { s.getBackdev (ndin.device - 1) with
          free_offset := idx,
          bitlist := (s.getBackdev (ndin.device - 1)).bitlist.set idx ALLOCATED,
          bitlist_disk := (s.getBackdev (ndin.device - 1)).bitlist_disk.set idx ALLOCATED
        }).getBackdev j).startofdata = (s.getBackdev j).startofdata) ∧
      (((s.setBackdev (ndin.device - 1)
        { s.getBackdev (ndin.device - 1) with
          free_offset := idx,
          bitlist := (s.getBackdev (ndin.device - 1)).bitlist.set idx ALLOCATED,
          bitlist_disk := (s.getBackdev (ndin.device - 1)).bitlist_disk.set idx ALLOCATED
        }).getBackdev j).endofdata = (s.getBackdev j).endofdata) ∧
      (((s.setBackdev (ndin.device - 1)
        { s.getBackdev (ndin.device - 1) with
          free_offset := idx,
          bitlist := (s.getBackdev (ndin.device - 1)).bitlist.set idx ALLOCATED,
          bitlist_disk := (s.getBackdev (ndin.device - 1)).bitlist_disk.set idx ALLOCATED
        }).getBackdev j).bitlist.length = (s.getBackdev j).bitlist.length) ∧
      (j ≠ ndin.device - 1 →
        ((s.setBackdev (ndin.device - 1)
          { s.getBackdev (ndin.device - 1) with
            free_offset := idx,
            bitlist := (s.getBackdev (ndin.device - 1)).bitlist.set idx ALLOCATED,
            bitlist_disk := (s.getBackdev (ndin.device - 1)).bitlist_disk.set idx ALLOCATED
          }).getBackdev j).bitlist = (s.getBackdev j).bitlist) := by
    intro j
    by_cases hj : ndin.device - 1 = j
    · rw [← hj, getBackdev_setBackdev_self _ _ _ hdlen]
      refine ⟨rfl, rfl, ?_, ?_⟩
      · exact List.length_set _ _ _
      · intro hc
        exact absurd rfl hc
    · rw [getBackdev_setBackdev_ne _ _ _ _ hj]
      exact ⟨rfl, rfl, rfl, fun _ => rfl⟩
  have hAbit_d :
      ((s.setBackdev (ndin.device - 1)
        { s.getBackdev (ndin.device - 1) with
          free_offset := idx,
          bitlist := (s.getBackdev (ndin.device - 1)).bitlist.set idx ALLOCATED,
          bitlist_disk := (s.getBackdev (ndin.device - 1)).bitlist_disk.set idx ALLOCATED
        }).getBackdev (ndin.device - 1)).bitlist
        = (s.getBackdev (ndin.device - 1)).bitlist.set idx ALLOCATED := by
    rw [getBackdev_setBackdev_self _ _ _ hdlen]
  have hAorg :
      (s.setBackdev (ndin.device - 1)
        { s.getBackdev (ndin.device - 1) with
          free_offset := idx,
          bitlist := (s.getBackdev (ndin.device - 1)).bitlist.set idx ALLOCATED,
          bitlist_disk := (s.getBackdev (ndin.device - 1)).bitlist_disk.set idx ALLOCATED
        }).getBackdev (old.device - 1) = s.getBackdev (old.device - 1) :=
    getBackdev_setBackdev_ne _ _ _ _ (by omega)
  obtain ⟨hMblk, hMatt, hMlen, hMst, hMend, hMbl, hMborg, hMbne⟩ :=
    migration_tail_components
      (s.setBackdev (ndin.device - 1)
        { s.getBackdev (ndin.device - 1) with
          free_offset := idx,
          bitlist := (s.getBackdev (ndin.device - 1)).bitlist.set idx ALLOCATED,
          bitlist_disk := (s.getBackdev (ndin.device - 1)).bitlist_disk.set idx ALLOCATED })
      curblock now
      { { ndin with readcount := 0, writecount := 0, lastused := now, device := 0 } with
        device := ndin.device - 1 + 1,
        offset := idx * BLKSIZE + (s.getBackdev (ndin.device - 1)).startofdata }
      old
      (by rw [setBackdev_length]; omega)
  rw [hstate, hres1, hres2, migration_tail_eq]
  refine migrate_inv_transfer s _ curblock (ndin.device - 1) (old.device - 1) idx
    ((old.offset - (s.getBackdev (old.device - 1)).startofdata) >>> BLK_SHIFT) now old
    ⟨ndin.device - 1 + 1, idx * BLKSIZE + (s.getBackdev (ndin.device - 1)).startofdata,
      now, 0, 0⟩
    hInv hcur hold holdlive rfl rfl htarget (by omega) rfl hfresh hbound
    ?_ ?_ ?_ ?_ ?_ ?_ ?_ ?_ ?_
  · exact hMblk
  · exact hMatt
  · exact hMlen.trans (setBackdev_length _ _ _)
  · intro j
    exact (hMst j).trans (hA j).1
  · intro j
    exact (hMend j).trans (hA j).2.1
  · intro j
    exact (hMbl j).trans (hA j).2.2.1
  · exact (hMbne (ndin.device - 1) (by omega)).trans hAbit_d
  · refine hMborg.trans ?_
    rw [hAorg]
  · intro j hjd hjorg
    exact (hMbne j hjorg).trans ((hA j).2.2.2 hjd)

theorem claim1_allocation_uniqueness_witness :
    tier_inv (clear_dev_list (reset_counters_on_migration
      (copyblock sW1 ⟨2, 0, 0, 0, 0⟩ ⟨1, 0, 0, 0, 0⟩ 0 5 0).2.2
      ⟨1, 0, 0, 0, 0⟩) ⟨1, 0, 0, 0, 0⟩) :=
  claim1_allocation_uniqueness sW1 0 5 ⟨1, 0, 0, 0, 0⟩ ⟨2, 0, 0, 0, 0⟩
    (by decide) (by decide) (by decide) (by decide) (by decide) (by decide) (by decide)
